import Mathlib

/-!
# Polled serial-port transmit driver: embedding and verified properties

The development follows the driver sources:

* `3/portio_asm.h`  : port primitives and UART helpers, in two builds
  (`_M_IX86` with inline `in`/`out`, `_M_AMD64` with the DDK port routines);
* `3/queue.c`       : `SerioEvtIoWrite`, the write dispatcher with its bounded
  polling loop;
* `3-1/device.c`, `3-1/device.h` : the device context and the hardware
  lifecycle callbacks;
* `3-1/app/write_serial.c` : the user-mode client and its retry loop
  (namespace `WriteSerial`, whose constants carry the names of the driver's).

Machine integers are natural numbers with the reductions `% 2^w` written
where the C types convert.  Port I/O is modelled by explicit state passing:
an `IoState` carries the number of port reads made so far and the list of
port accesses (the trace); a `Hardware` answers the reads.  The port space has
16 address bits: `in`/`out` take the port in `dx`, and the DDK routines
`READ_PORT_UCHAR` / `WRITE_PORT_UCHAR` take the low 16 bits of their pointer.
-/

namespace Serio

/-! ## Status codes -/

/-- An NTSTATUS value, kept as its unsigned 32-bit pattern. -/
abbrev NTSTATUS := Nat

/-- The ntstatus.h value of STATUS_SUCCESS. -/
def STATUS_SUCCESS : NTSTATUS := 0

/-- The ntstatus.h value of STATUS_INVALID_PARAMETER. -/
def STATUS_INVALID_PARAMETER : NTSTATUS := 0xC000000D

/-- The ntstatus.h value of STATUS_INSUFFICIENT_RESOURCES. -/
def STATUS_INSUFFICIENT_RESOURCES : NTSTATUS := 0xC000009A

/-- The DDK test `NT_SUCCESS(Status)`, that is `((NTSTATUS)(Status)) >= 0` on the
signed 32-bit code: the sign bit is clear. -/
def NT_SUCCESS (Status : NTSTATUS) : Bool := decide (Status % 2 ^ 32 < 2 ^ 31)

/-! ## Constants of the sources -/

/-- From `serio.h` and `device.c`: COM1 base address. -/
def COM1_BASE_ADDRESS : Nat := 0x3F8

/-- From `serio.h` and `device.c`: number of I/O addresses. -/
def COM_PORT_COUNT : Nat := 8

/-- From `serio.h`: offset of the transmitter holding register. -/
def UART_THR : Nat := 0

/-- From `serio.h`: offset of the line status register. -/
def UART_LSR : Nat := 5

/-- From `queue.c` and `serio.h`: transmitter-holding-register-empty bit. -/
def LSR_THRE : Nat := 0x20

/-- From `queue.c`: bound of the polling loop. -/
def MAX_TX_ATTEMPTS : Nat := 100

/-- From `queue.c`: stall between two polls, in microseconds. -/
def TX_POLL_DELAY : Nat := 1

/-! ## Build targets -/

/-- The two targets of `portio_asm.h`: `_M_IX86` and `_M_AMD64`. -/
inductive Arch where
  | x86
  | amd64
  deriving DecidableEq, Repr

/-- Width in bits of `ULONG_PTR` and of pointers on a target. -/
def Arch.ptrBits : Arch → Nat
  | Arch.x86 => 32
  | Arch.amd64 => 64

/-! ## Port space, hardware and traces -/

/-- One access of the driver to the outside: a byte read from a port, a byte
written to a port, or a busy-wait.  `port` is the port accessed, a number of
the 16-bit port space (the `dx` register of `in`/`out`). -/
inductive PortEvent where
  | read (port value : Nat)
  | write (port value : Nat)
  | stall (us : Nat)
  deriving DecidableEq, Repr

/-- Fake hardware: `hw n port` is what the `n`-th port read of a run (counted
from 0) returns when it is made at `port`.  Reads are the only way the device
acts on the code, so every deterministic device is such a function. -/
abbrev Hardware := Nat → Nat → Nat

/-- State threaded through port I/O: reads made so far, accesses made so far. -/
structure IoState where
  reads : Nat
  trace : List PortEvent
  deriving DecidableEq, Repr

/-- State before any access. -/
def IoState.init : IoState := ⟨0, []⟩

/-- A byte-wide port read (the instruction `in al, dx`): the device answers,
the value is a `UCHAR`. -/
def portIn (hw : Hardware) (port : Nat) (s : IoState) : Nat × IoState :=
  (hw s.reads port % 256,
   ⟨s.reads + 1, s.trace ++ [PortEvent.read port (hw s.reads port % 256)]⟩)

/-- A byte-wide port write (the instruction `out dx, al`). -/
def portOut (port value : Nat) (s : IoState) : IoState :=
  ⟨s.reads, s.trace ++ [PortEvent.write port (value % 256)]⟩

/-- DDK routine `READ_PORT_UCHAR(Port)`: reads a byte from the port whose number
is the low 16 bits of the pointer `Port`; the port space has 16 address bits
(on AMD64 the routine is `__inbyte((USHORT)((ULONG_PTR)Port))`). -/
def READ_PORT_UCHAR (hw : Hardware) (Port : Nat) (s : IoState) : Nat × IoState :=
  portIn hw (Port % 2 ^ 16) s

/-- DDK routine `WRITE_PORT_UCHAR(Port, Value)`: writes a byte to the port whose
number is the low 16 bits of the pointer `Port` (on AMD64 the routine is
`__outbyte((USHORT)((ULONG_PTR)Port), Value)`). -/
def WRITE_PORT_UCHAR (Port Value : Nat) (s : IoState) : IoState :=
  portOut (Port % 2 ^ 16) Value s

/-- DDK routine `KeStallExecutionProcessor(MicroSeconds)`: busy-wait. -/
def KeStallExecutionProcessor (MicroSeconds : Nat) (s : IoState) : IoState :=
  ⟨s.reads, s.trace ++ [PortEvent.stall MicroSeconds]⟩

/-! ### Observations on a trace -/

/-- Is the event a port read. -/
def PortEvent.isRead : PortEvent → Bool
  | PortEvent.read _ _ => true
  | _ => false

/-- Is the event a busy-wait. -/
def PortEvent.isStall : PortEvent → Bool
  | PortEvent.stall _ => true
  | _ => false

/-- The port and value of a write event. -/
def PortEvent.asWrite : PortEvent → Option (Nat × Nat)
  | PortEvent.write p v => some (p, v)
  | _ => none

/-- The port of a read event. -/
def PortEvent.asReadPort : PortEvent → Option Nat
  | PortEvent.read p _ => some p
  | _ => none

/-- Number of port reads in a trace. -/
def polls (tr : List PortEvent) : Nat := tr.countP PortEvent.isRead

/-- Number of busy-waits in a trace. -/
def stalls (tr : List PortEvent) : Nat := tr.countP PortEvent.isStall

/-- The port writes of a trace, in order, as (port, value). -/
def writes (tr : List PortEvent) : List (Nat × Nat) := tr.filterMap PortEvent.asWrite

/-- The ports read in a trace, in order. -/
def readPorts (tr : List PortEvent) : List Nat := tr.filterMap PortEvent.asReadPort

/-! ## `portio_asm.h` -/

/-- `ReadByteFromPort`.  x86: `__forceinline UCHAR ReadByteFromPort(USHORT port)`
with `mov dx, port; in al, dx`.  AMD64: the macro
`READ_PORT_UCHAR((PUCHAR)(ULONG_PTR)(port))`. -/
def ReadByteFromPort (arch : Arch) (hw : Hardware) (port : Nat) (s : IoState) :
    Nat × IoState :=
  match arch with
  | Arch.x86 => portIn hw (port % 2 ^ 16) s
  | Arch.amd64 => READ_PORT_UCHAR hw (port % 2 ^ 64) s

/-- `WriteByteToPort`.  x86: `void WriteByteToPort(USHORT port, UCHAR value)`
with `mov dx, port; mov al, value; out dx, al`.  AMD64: the macro
`WRITE_PORT_UCHAR((PUCHAR)(ULONG_PTR)(port), (value))`. -/
def WriteByteToPort (arch : Arch) (port value : Nat) (s : IoState) : IoState :=
  match arch with
  | Arch.x86 => portOut (port % 2 ^ 16) (value % 256) s
  | Arch.amd64 => WRITE_PORT_UCHAR (port % 2 ^ 64) value s

/-- `UCHAR ReadSerialLSR(USHORT port_base)`.  x86:
`return ReadByteFromPort(port_base + 5);` where the sum is an `int` converted to
the `USHORT` parameter.  AMD64:
`return READ_PORT_UCHAR((PUCHAR)(ULONG_PTR)(port_base + 5));`. -/
def ReadSerialLSR (arch : Arch) (hw : Hardware) (port_base : Nat) (s : IoState) :
    Nat × IoState :=
  match arch with
  | Arch.x86 => ReadByteFromPort Arch.x86 hw (port_base % 2 ^ 16 + 5) s
  | Arch.amd64 => READ_PORT_UCHAR hw ((port_base % 2 ^ 16 + 5) % 2 ^ 64) s

/-- `void WriteByteToTHR(USHORT port_base, UCHAR byte)`.  x86:
`WriteByteToPort(port_base, byte);`.  AMD64:
`WRITE_PORT_UCHAR((PUCHAR)(ULONG_PTR)port_base, byte);`. -/
def WriteByteToTHR (arch : Arch) (port_base byte : Nat) (s : IoState) : IoState :=
  match arch with
  | Arch.x86 => WriteByteToPort Arch.x86 (port_base % 2 ^ 16) (byte % 256) s
  | Arch.amd64 => WRITE_PORT_UCHAR ((port_base % 2 ^ 16) % 2 ^ 64) (byte % 256) s

/-- `BOOLEAN IsTransmitterReady(USHORT port_base)` (same text on both targets):
`UCHAR lsr = ReadSerialLSR(port_base); return (lsr & 0x20) ? TRUE : FALSE;`. -/
def IsTransmitterReady (arch : Arch) (hw : Hardware) (port_base : Nat) (s : IoState) :
    Bool × IoState :=
  let r := ReadSerialLSR arch hw (port_base % 2 ^ 16) s
  (if r.1 &&& 0x20 ≠ 0 then true else false, r.2)

/-- `BOOLEAN TryTransmitByte(USHORT port_base, UCHAR byte)` (same text on both
targets): `if (IsTransmitterReady(port_base)) { WriteByteToTHR(port_base, byte);
return TRUE; } return FALSE;`. -/
def TryTransmitByte (arch : Arch) (hw : Hardware) (port_base byte : Nat) (s : IoState) :
    Bool × IoState :=
  let r := IsTransmitterReady arch hw (port_base % 2 ^ 16) s
  if r.1 = true then
    (true, WriteByteToTHR arch (port_base % 2 ^ 16) (byte % 256) r.2)
  else
    (false, r.2)

/-! ## `device.h` -/

/-- `DEVICE_CONTEXT` of `device.h`. -/
structure DEVICE_CONTEXT where
  PortBase : Nat
  PortCount : Nat
  PortMemoryType : Nat
  PortWasMapped : Bool
  BaudRate : Nat
  DataBits : Nat
  StopBits : Nat
  Parity : Nat
  deriving DecidableEq, Repr

/-! ## `queue.c` -/

/-- A framework request, seen through the one framework call the handler makes
on it: `WdfRequestRetrieveInputBuffer(Request, MinimumRequiredSize, &pBuffer, NULL)`
answers with a status and, through `pBuffer`, the bytes of the input buffer
(`pBuffer i` is the byte `pBuffer[i]`). -/
structure WDFREQUEST where
  RetrieveInputBuffer : Nat → NTSTATUS × (Nat → Nat)

/-- The framework call `WdfRequestRetrieveInputBuffer`. -/
def WdfRequestRetrieveInputBuffer (Request : WDFREQUEST) (MinimumRequiredSize : Nat) :
    NTSTATUS × (Nat → Nat) :=
  Request.RetrieveInputBuffer MinimumRequiredSize

/-- The byte `pBuffer[i]` read through a `PUCHAR`. -/
def bufferByte (pBuffer : Nat → Nat) (i : Nat) : Nat := pBuffer i % 256

/-- What `WdfRequestCompleteWithInformation(Request, status, bytesWritten)` is
called with. -/
structure Completion where
  status : NTSTATUS
  bytesWritten : Nat
  deriving DecidableEq, Repr

/-- Locals of `SerioEvtIoWrite` that the polling loop changes. -/
structure PollState where
  bytesWritten : Nat
  attempts : Nat
  io : IoState
  deriving DecidableEq, Repr

/-- Pointer handed to `READ_PORT_UCHAR` in `SerioEvtIoWrite`:
`(ULONG_PTR)devContext->PortBase + 5`. -/
def lsrAddress (arch : Arch) (devContext : DEVICE_CONTEXT) : Nat :=
  (devContext.PortBase % 2 ^ arch.ptrBits + 5) % 2 ^ arch.ptrBits

/-- Pointer handed to `WRITE_PORT_UCHAR` in `SerioEvtIoWrite`:
`(ULONG_PTR)devContext->PortBase + 0`. -/
def thrAddress (arch : Arch) (devContext : DEVICE_CONTEXT) : Nat :=
  (devContext.PortBase % 2 ^ arch.ptrBits + 0) % 2 ^ arch.ptrBits

/-- Port of the status read in `SerioEvtIoWrite`: the port `READ_PORT_UCHAR`
reads when handed `lsrAddress`. -/
def lsrPort (arch : Arch) (devContext : DEVICE_CONTEXT) : Nat :=
  lsrAddress arch devContext % 2 ^ 16

/-- Port of the data write in `SerioEvtIoWrite`: the port `WRITE_PORT_UCHAR`
writes when handed `thrAddress`. -/
def thrPort (arch : Arch) (devContext : DEVICE_CONTEXT) : Nat :=
  thrAddress arch devContext % 2 ^ 16

/-- The loop `while (attempts < MAX_TX_ATTEMPTS) { ... }` of `SerioEvtIoWrite`,
entered with the current locals. -/
def pollLoop (arch : Arch) (hw : Hardware) (devContext : DEVICE_CONTEXT) (txByte : Nat)
    (st : PollState) : PollState :=
  if st.attempts < MAX_TX_ATTEMPTS then
    -- lsr = READ_PORT_UCHAR((PUCHAR)((ULONG_PTR)devContext->PortBase + 5));
    let r := READ_PORT_UCHAR hw (lsrAddress arch devContext) st.io
    if r.1 &&& LSR_THRE ≠ 0 then
      -- WRITE_PORT_UCHAR(...PortBase + 0, txByte); bytesWritten = 1; break;
      ⟨1, st.attempts, WRITE_PORT_UCHAR (thrAddress arch devContext) txByte r.2⟩
    else
      -- attempts++; KeStallExecutionProcessor(TX_POLL_DELAY);
      pollLoop arch hw devContext txByte
        ⟨st.bytesWritten, st.attempts + 1, KeStallExecutionProcessor TX_POLL_DELAY r.2⟩
  else
    st
termination_by MAX_TX_ATTEMPTS - st.attempts
decreasing_by
  simp_wf
  omega

/-- `VOID SerioEvtIoWrite(Queue, Request, Length)`.  `devContext` is the context
of the queue's device; the result is the completion of the request and the I/O
state after the call. -/
def SerioEvtIoWrite (arch : Arch) (hw : Hardware) (devContext : DEVICE_CONTEXT)
    (Request : WDFREQUEST) (Length : Nat) (s : IoState) : Completion × IoState :=
  -- NTSTATUS status = STATUS_SUCCESS; size_t bytesWritten = 0;
  if Length = 0 then
    -- status = STATUS_INVALID_PARAMETER; goto exit;
    (⟨STATUS_INVALID_PARAMETER, 0⟩, s)
  else
    let r := WdfRequestRetrieveInputBuffer Request Length
    if NT_SUCCESS r.1 = false then
      -- goto exit;
      (⟨r.1, 0⟩, s)
    else
      -- txByte = pBuffer[0]; attempts = 0;
      let st := pollLoop arch hw devContext (bufferByte r.2 0) ⟨0, 0, s⟩
      -- if (attempts >= MAX_TX_ATTEMPTS) bytesWritten = 0;
      if st.attempts ≥ MAX_TX_ATTEMPTS then
        (⟨r.1, 0⟩, st.io)
      else
        (⟨r.1, st.bytesWritten⟩, st.io)

/-! ## `device.c` -/

/-- `NTSTATUS SerioEvtDevicePrepareHardware(Device, ResourceList,
ResourceListTranslated)` on the device's context: the returned status and the
context afterwards. -/
def SerioEvtDevicePrepareHardware (deviceContext : DEVICE_CONTEXT) :
    NTSTATUS × DEVICE_CONTEXT :=
  -- deviceContext->PortBase = (PVOID)(ULONG_PTR)COM1_BASE_ADDRESS;
  -- deviceContext->PortWasMapped = FALSE;
  (STATUS_SUCCESS,
   { deviceContext with PortBase := COM1_BASE_ADDRESS, PortWasMapped := false })

/-- What a lifecycle callback does to the system's I/O mappings:
`MmUnmapIoSpace(BaseAddress, NumberOfBytes)`. -/
inductive MapEvent where
  | unmap (BaseAddress NumberOfBytes : Nat)
  deriving DecidableEq, Repr

/-- `NTSTATUS SerioEvtDeviceReleaseHardware(Device, ResourceListTranslated)` on
the device's context: the returned status, the context afterwards and the
unmap calls made.  The body of `if (deviceContext->PortWasMapped) { ... }` holds
only comments (the call `MmUnmapIoSpace(deviceContext->PortBase,
deviceContext->PortCount)` is commented out), and no field is assigned. -/
def SerioEvtDeviceReleaseHardware (deviceContext : DEVICE_CONTEXT) :
    NTSTATUS × DEVICE_CONTEXT × List MapEvent :=
  if deviceContext.PortWasMapped = true then
    -- // MmUnmapIoSpace(deviceContext->PortBase, deviceContext->PortCount);
    (STATUS_SUCCESS, deviceContext, [])
  else
    (STATUS_SUCCESS, deviceContext, [])

/-! ## `app/write_serial.c` -/

namespace WriteSerial

/-- From `write_serial.c`: bound of the client's retry loop. -/
def MAX_TX_ATTEMPTS : Nat := 100

/-- From `write_serial.c`: delay between two retries, in milliseconds. -/
def TX_POLL_DELAY : Nat := 10

/-- What the client does to the outside: a call
`WriteFile(hDevice, &cByte, nNumberOfBytesToWrite, &dwBytesWritten, NULL)`, with
the byte `cByte` its buffer points to, or a call `Sleep(dwMilliseconds)`. -/
inductive ClientEvent where
  | writeFile (cByte nNumberOfBytesToWrite : Nat)
  | sleep (dwMilliseconds : Nat)
  deriving DecidableEq, Repr

/-- The driver as the client sees it: `drv n` is the answer to the `n`-th
`WriteFile` call of a run (counted from 0), the `BOOL` returned and the value
stored in `dwBytesWritten`. -/
abbrev Driver := Nat → Bool × Nat

/-- State threaded through the client: calls of `WriteFile` made so far, and
what the client did so far. -/
structure ClientState where
  calls : Nat
  trace : List ClientEvent
  deriving DecidableEq, Repr

/-- State before any call. -/
def ClientState.init : ClientState := ⟨0, []⟩

/-- The call `WriteFile(hDevice, &cByte, nNumberOfBytesToWrite, &dwBytesWritten,
NULL)`: the driver's answer and the state afterwards. -/
def WriteFile (drv : Driver) (cByte nNumberOfBytesToWrite : Nat) (st : ClientState) :
    (Bool × Nat) × ClientState :=
  (drv st.calls,
   ⟨st.calls + 1, st.trace ++ [ClientEvent.writeFile cByte nNumberOfBytesToWrite]⟩)

/-- The call `Sleep(dwMilliseconds)`. -/
def Sleep (dwMilliseconds : Nat) (st : ClientState) : ClientState :=
  ⟨st.calls, st.trace ++ [ClientEvent.sleep dwMilliseconds]⟩

/-- The loop `while (nAttempts < MAX_TX_ATTEMPTS) { ... }` of `main` for the
character `cByte`, entered with the current `nAttempts`: the value of
`nAttempts` at its end and the state afterwards. -/
def retryLoop (drv : Driver) (cByte : Nat) (nAttempts : Nat) (st : ClientState) :
    Nat × ClientState :=
  if nAttempts < MAX_TX_ATTEMPTS then
    -- if (WriteFile(hDevice, &cByte, 1, &dwBytesWritten, NULL))
    let r := WriteFile drv cByte 1 st
    if r.1.1 = true then
      if r.1.2 = 1 then
        -- printf(... transmitted successfully ...); break;
        (nAttempts, r.2)
      else
        -- nAttempts++;
        if nAttempts + 1 ≥ MAX_TX_ATTEMPTS then
          -- printf(... transmission timeout ...);
          retryLoop drv cByte (nAttempts + 1) r.2
        else
          -- Sleep(TX_POLL_DELAY);
          retryLoop drv cByte (nAttempts + 1) (Sleep TX_POLL_DELAY r.2)
    else
      -- printf(... WriteFile failed ...); break;
      (nAttempts, r.2)
  else
    (nAttempts, st)
termination_by MAX_TX_ATTEMPTS - nAttempts
decreasing_by
  all_goals simp_wf
  all_goals omega

/-- The loop `for (i = 0; i < dwDataLen; i++) { cByte = strData[i]; nAttempts = 0;
while ... }` of `main` over the characters still to send. -/
def forLoop (drv : Driver) : List Nat → ClientState → ClientState
  | [], st => st
  | cByte :: rest, st => forLoop drv rest (retryLoop drv cByte 0 st).2

/-- The function `main` from the call of `CreateFile` on: `hDeviceValid` tells
whether the handle it returned is valid, `strData` holds the characters of the
string to send (`dwDataLen` of them); the result is the exit code and what the
client did. -/
def main (drv : Driver) (hDeviceValid : Bool) (strData : List Nat) : Nat × ClientState :=
  if hDeviceValid = false then
    -- printf("Error: Cannot open device ..."); return 1;
    (1, ClientState.init)
  else
    (0, forLoop drv strData ClientState.init)

/-- Is the event a call of `WriteFile`. -/
def ClientEvent.isWrite : ClientEvent → Bool
  | ClientEvent.writeFile _ _ => true
  | _ => false

/-- The `WriteFile` calls of a trace, in order. -/
def writeCalls (tr : List ClientEvent) : List ClientEvent := tr.filter ClientEvent.isWrite

/-- Specification of the client's retries, from its description and not from the
code: the number of writes for one character whose first write is call number
`start`; writes go on up to and including the first one whose response reports
1 byte, and there are `budget` of them at most. -/
def writesForChar (drv : Driver) : Nat → Nat → Nat
  | _, 0 => 0
  | start, budget + 1 =>
    if (drv start).2 = 1 then 1 else 1 + writesForChar drv (start + 1) budget

/-- Specification of the client's run, from its description and not from the
code: for each character in order, `writesForChar` single-byte writes carrying
that character, the first of them being call number `start`. -/
def expectedWrites (drv : Driver) : Nat → List Nat → List ClientEvent
  | _, [] => []
  | start, cByte :: rest =>
    List.replicate (writesForChar drv start MAX_TX_ATTEMPTS) (ClientEvent.writeFile cByte 1)
      ++ expectedWrites drv (start + writesForChar drv start MAX_TX_ATTEMPTS) rest

end WriteSerial

/-! ## Observers used in the statements -/

/-- The status byte the `n`-th port read of a run returns when it is made at the
status address of `SerioEvtIoWrite`. -/
def statusReading (arch : Arch) (hw : Hardware) (devContext : DEVICE_CONTEXT) (n : Nat) :
    Nat :=
  hw n (lsrPort arch devContext) % 256

/-- I/O state after `n` consecutive polls of `SerioEvtIoWrite` that each found
the transmitter busy: a status read and a stall, `n` times. -/
def busyPolls (arch : Arch) (hw : Hardware) (devContext : DEVICE_CONTEXT) :
    Nat → IoState → IoState
  | 0, s => s
  | n + 1, s =>
    busyPolls arch hw devContext n
      (KeStallExecutionProcessor TX_POLL_DELAY
        (READ_PORT_UCHAR hw (lsrPort arch devContext) s).2)

/-- Port at which the UART helpers of `portio_asm.h` read the status register
for a 16-bit base: offset `UART_LSR` from the base in the 16-bit port space.
On x86 the sum wraps in the `USHORT` parameter of `ReadByteFromPort`, on
AMD64 `READ_PORT_UCHAR` takes the low 16 bits of the pointer it is handed. -/
def uartLsrPort (arch : Arch) (port_base : Nat) : Nat :=
  match arch with
  | Arch.x86 => (port_base + UART_LSR) % 2 ^ 16
  | Arch.amd64 => (port_base + UART_LSR) % 2 ^ 16

/-- The port accesses of a trace, in order: its reads and writes, the busy-waits
left out. -/
def portAccesses (tr : List PortEvent) : List PortEvent :=
  tr.filter (fun e => !e.isStall)

/-- Specification of the dispatcher's per-byte polling as a bounded poll against
the UART helper, from its description and not from `queue.c`: call
`TryTransmitByte(base, byte)` repeatedly, `n` times at most, stopping at the
first call that returns TRUE.  The result is the number of bytes written (1
when a call returned TRUE, else 0) and the I/O state afterwards. -/
def boundedPollWithHelper (arch : Arch) (hw : Hardware) (port_base byte : Nat) :
    Nat → IoState → Nat × IoState
  | 0, s => (0, s)
  | n + 1, s =>
    if (TryTransmitByte arch hw port_base byte s).1 = true then
      (1, (TryTransmitByte arch hw port_base byte s).2)
    else
      boundedPollWithHelper arch hw port_base byte n
        (TryTransmitByte arch hw port_base byte s).2

/-- I/O state after `n` consecutive status reads at `port`, nothing else done. -/
def busyReads (hw : Hardware) (port : Nat) : Nat → IoState → IoState
  | 0, s => s
  | n + 1, s => busyReads hw port n (portIn hw port s).2

/-! ## Sample inputs -/

/-- The context `SerioDeviceCreate` and `SerioEvtDevicePrepareHardware` leave:
COM1, eight ports, I/O space, 9600 8N1. -/
def ctxCom1 : DEVICE_CONTEXT := ⟨COM1_BASE_ADDRESS, COM_PORT_COUNT, 1, false, 9600, 8, 1, 0⟩

/-- A write request whose input buffer is the one byte "A". -/
def requestA : WDFREQUEST := ⟨fun _ => (STATUS_SUCCESS, fun i => if i = 0 then 0x41 else 0)⟩

/-- A write request whose input buffer the framework fails to hand out. -/
def requestFailed : WDFREQUEST := ⟨fun _ => (STATUS_INSUFFICIENT_RESOURCES, fun _ => 0)⟩

/-- Hardware whose status register shows THRE on every read. -/
def hwAlwaysReady : Hardware := fun _ _ => 0x60

/-- Hardware whose status register never shows THRE. -/
def hwNeverReady : Hardware := fun _ _ => 0

/-- Hardware whose status register shows THRE on the `k`-th read only (counted from 1). -/
def hwReadyOnPoll (k : Nat) : Hardware := fun n _ => if n + 1 = k then 0x20 else 0

/-- The context of a device at the base 0xFFFB, the last five ports of the
16-bit port space. -/
def ctxTopOfPortSpace : DEVICE_CONTEXT := ⟨0xFFFB, COM_PORT_COUNT, 1, false, 9600, 8, 1, 0⟩

/-- A context whose flag PortWasMapped is set. -/
def ctxMapped : DEVICE_CONTEXT := ⟨COM1_BASE_ADDRESS, COM_PORT_COUNT, 1, true, 9600, 8, 1, 0⟩

/-- A driver that completes every write with success, the first two with 0 bytes
written, the third one (call number 2) and all later ones with 1. -/
def drvSendsFromThird : WriteSerial.Driver := fun n => (true, if n < 2 then 0 else 1)

end Serio

namespace Serio

/-! ## Lemmas on traces -/

theorem polls_append (a b : List PortEvent) : polls (a ++ b) = polls a + polls b := by
  simp [polls, List.countP_append]

theorem stalls_append (a b : List PortEvent) : stalls (a ++ b) = stalls a + stalls b := by
  simp [stalls, List.countP_append]

theorem writes_append (a b : List PortEvent) : writes (a ++ b) = writes a ++ writes b := by
  simp [writes, List.filterMap_append]

theorem readPorts_append (a b : List PortEvent) :
    readPorts (a ++ b) = readPorts a ++ readPorts b := by
  simp [readPorts, List.filterMap_append]

/-! ## Pointers and ports -/

theorem lsrPort_mod (arch : Arch) (devContext : DEVICE_CONTEXT) :
    lsrPort arch devContext % 2 ^ 16 = lsrPort arch devContext :=
  Nat.mod_mod _ _

theorem thrPort_mod (arch : Arch) (devContext : DEVICE_CONTEXT) :
    thrPort arch devContext % 2 ^ 16 = thrPort arch devContext :=
  Nat.mod_mod _ _

/-- Handed the pointer `lsrAddress`, `READ_PORT_UCHAR` reads the port `lsrPort`. -/
theorem READ_PORT_UCHAR_lsrAddress (arch : Arch) (hw : Hardware)
    (devContext : DEVICE_CONTEXT) (s : IoState) :
    READ_PORT_UCHAR hw (lsrAddress arch devContext) s
      = READ_PORT_UCHAR hw (lsrPort arch devContext) s := by
  unfold READ_PORT_UCHAR
  rw [lsrPort_mod]
  rfl

/-- Handed the pointer `thrAddress`, `WRITE_PORT_UCHAR` writes the port `thrPort`. -/
theorem WRITE_PORT_UCHAR_thrAddress (arch : Arch) (devContext : DEVICE_CONTEXT)
    (v : Nat) (s : IoState) :
    WRITE_PORT_UCHAR (thrAddress arch devContext) v s
      = WRITE_PORT_UCHAR (thrPort arch devContext) v s := by
  unfold WRITE_PORT_UCHAR
  rw [thrPort_mod]
  rfl

theorem READ_PORT_UCHAR_lsrPort (arch : Arch) (hw : Hardware)
    (devContext : DEVICE_CONTEXT) (s : IoState) :
    READ_PORT_UCHAR hw (lsrPort arch devContext) s = portIn hw (lsrPort arch devContext) s := by
  unfold READ_PORT_UCHAR
  rw [lsrPort_mod]

theorem WRITE_PORT_UCHAR_thrPort (arch : Arch) (devContext : DEVICE_CONTEXT)
    (v : Nat) (s : IoState) :
    WRITE_PORT_UCHAR (thrPort arch devContext) v s = portOut (thrPort arch devContext) v s := by
  unfold WRITE_PORT_UCHAR
  rw [thrPort_mod]

/-! ## Lemmas on the polling loop -/

section Loop

variable (arch : Arch) (hw : Hardware) (devContext : DEVICE_CONTEXT) (txByte : Nat)

theorem pollLoop_done (st : PollState) (h : MAX_TX_ATTEMPTS ≤ st.attempts) :
    pollLoop arch hw devContext txByte st = st := by
  rw [pollLoop]
  simp [Nat.not_lt.mpr h]

theorem pollLoop_ready (st : PollState) (h : st.attempts < MAX_TX_ATTEMPTS)
    (hr : statusReading arch hw devContext st.io.reads &&& LSR_THRE ≠ 0) :
    pollLoop arch hw devContext txByte st =
      ⟨1, st.attempts,
        WRITE_PORT_UCHAR (thrPort arch devContext) txByte
          (READ_PORT_UCHAR hw (lsrPort arch devContext) st.io).2⟩ := by
  rw [pollLoop, READ_PORT_UCHAR_lsrAddress]
  have hr2 : (READ_PORT_UCHAR hw (lsrPort arch devContext) st.io).1 &&& LSR_THRE ≠ 0 := by
    rw [READ_PORT_UCHAR_lsrPort]
    exact hr
  simp [h, hr2, WRITE_PORT_UCHAR_thrAddress]

theorem pollLoop_busy (st : PollState) (h : st.attempts < MAX_TX_ATTEMPTS)
    (hr : ¬ statusReading arch hw devContext st.io.reads &&& LSR_THRE ≠ 0) :
    pollLoop arch hw devContext txByte st =
      pollLoop arch hw devContext txByte
        ⟨st.bytesWritten, st.attempts + 1,
          KeStallExecutionProcessor TX_POLL_DELAY
            (READ_PORT_UCHAR hw (lsrPort arch devContext) st.io).2⟩ := by
  rw [pollLoop, READ_PORT_UCHAR_lsrAddress]
  have hr2 : ¬ (READ_PORT_UCHAR hw (lsrPort arch devContext) st.io).1 &&& LSR_THRE ≠ 0 := by
    rw [READ_PORT_UCHAR_lsrPort]
    exact hr
  simp [h, hr2, WRITE_PORT_UCHAR_thrAddress]

theorem busyPolls_reads (n : Nat) (s : IoState) :
    (busyPolls arch hw devContext n s).reads = s.reads + n := by
  induction n generalizing s with
  | zero => rfl
  | succ n ih =>
    rw [busyPolls, ih]
    simp [KeStallExecutionProcessor, READ_PORT_UCHAR, portIn]
    omega

theorem busyPolls_polls (n : Nat) (s : IoState) :
    polls (busyPolls arch hw devContext n s).trace = polls s.trace + n := by
  induction n generalizing s with
  | zero => rfl
  | succ n ih =>
    rw [busyPolls, ih]
    simp [KeStallExecutionProcessor, READ_PORT_UCHAR, portIn, polls, PortEvent.isRead]
    omega

theorem busyPolls_stalls (n : Nat) (s : IoState) :
    stalls (busyPolls arch hw devContext n s).trace = stalls s.trace + n := by
  induction n generalizing s with
  | zero => rfl
  | succ n ih =>
    rw [busyPolls, ih]
    simp [KeStallExecutionProcessor, READ_PORT_UCHAR, portIn, stalls, PortEvent.isStall]
    omega

theorem busyPolls_writes (n : Nat) (s : IoState) :
    writes (busyPolls arch hw devContext n s).trace = writes s.trace := by
  induction n generalizing s with
  | zero => rfl
  | succ n ih =>
    rw [busyPolls, ih]
    simp [KeStallExecutionProcessor, READ_PORT_UCHAR, portIn, writes, PortEvent.asWrite]

/-- While the readings stay busy the loop only advances: after `n` busy polls
it is in the state with `n` more attempts. -/
theorem pollLoop_busy_run (n : Nat) (st : PollState)
    (hn : st.attempts + n ≤ MAX_TX_ATTEMPTS)
    (hbusy : ∀ i, i < n →
      ¬ statusReading arch hw devContext (st.io.reads + i) &&& LSR_THRE ≠ 0) :
    pollLoop arch hw devContext txByte st =
      pollLoop arch hw devContext txByte
        ⟨st.bytesWritten, st.attempts + n, busyPolls arch hw devContext n st.io⟩ := by
  induction n generalizing st with
  | zero => rfl
  | succ n ih =>
    have h0 := hbusy 0 (Nat.succ_pos n)
    rw [pollLoop_busy arch hw devContext txByte st (by omega) (by simpa using h0)]
    rw [ih _ (by simp only; omega)]
    · simp only [busyPolls]
      congr 2
      omega
    · intro i hi
      have := hbusy (i + 1) (by omega)
      simpa [KeStallExecutionProcessor, READ_PORT_UCHAR, portIn, Nat.add_assoc,
        Nat.add_comm 1 i] using this

/-- No reading among those the loop can still take shows THRE: the loop ends with
the attempt counter at its bound, having polled and stalled each time. -/
theorem pollLoop_never (st : PollState) (ha : st.attempts ≤ MAX_TX_ATTEMPTS)
    (hbusy : ∀ i, i < MAX_TX_ATTEMPTS - st.attempts →
      ¬ statusReading arch hw devContext (st.io.reads + i) &&& LSR_THRE ≠ 0) :
    pollLoop arch hw devContext txByte st =
      ⟨st.bytesWritten, MAX_TX_ATTEMPTS,
        busyPolls arch hw devContext (MAX_TX_ATTEMPTS - st.attempts) st.io⟩ := by
  rw [pollLoop_busy_run arch hw devContext txByte (MAX_TX_ATTEMPTS - st.attempts) st
    (by omega) hbusy]
  rw [pollLoop_done _ _ _ _ _ (by simp only; omega)]
  congr 1
  omega

/-- The first reading that shows THRE comes after `j` busy ones, within the
bound: the loop ends there with the byte written. -/
theorem pollLoop_first_ready (j : Nat) (st : PollState)
    (hj : st.attempts + j < MAX_TX_ATTEMPTS)
    (hbusy : ∀ i, i < j →
      ¬ statusReading arch hw devContext (st.io.reads + i) &&& LSR_THRE ≠ 0)
    (hready : statusReading arch hw devContext (st.io.reads + j) &&& LSR_THRE ≠ 0) :
    pollLoop arch hw devContext txByte st =
      ⟨1, st.attempts + j,
        WRITE_PORT_UCHAR (thrPort arch devContext) txByte
          (READ_PORT_UCHAR hw (lsrPort arch devContext)
            (busyPolls arch hw devContext j st.io)).2⟩ := by
  rw [pollLoop_busy_run arch hw devContext txByte j st (by omega) hbusy]
  rw [pollLoop_ready arch hw devContext txByte _ (by simp only; omega)
    (by simpa [busyPolls_reads] using hready)]

end Loop


/-! ## The write dispatcher, case by case -/

section Dispatcher

variable (arch : Arch) (hw : Hardware) (devContext : DEVICE_CONTEXT) (Request : WDFREQUEST)

theorem SerioEvtIoWrite_zero (s : IoState) :
    SerioEvtIoWrite arch hw devContext Request 0 s = (⟨STATUS_INVALID_PARAMETER, 0⟩, s) := by
  simp [SerioEvtIoWrite]

theorem SerioEvtIoWrite_retrieve_failed (Length : Nat) (s : IoState) (hLen : Length ≠ 0)
    (hBuf : NT_SUCCESS (WdfRequestRetrieveInputBuffer Request Length).1 = false) :
    SerioEvtIoWrite arch hw devContext Request Length s =
      (⟨(WdfRequestRetrieveInputBuffer Request Length).1, 0⟩, s) := by
  simp [SerioEvtIoWrite, hLen, hBuf]

theorem SerioEvtIoWrite_first_ready (Length : Nat) (s : IoState) (j : Nat) (hLen : Length ≠ 0)
    (hBuf : NT_SUCCESS (WdfRequestRetrieveInputBuffer Request Length).1 = true)
    (hj : j < MAX_TX_ATTEMPTS)
    (hbusy : ∀ i, i < j → ¬ statusReading arch hw devContext (s.reads + i) &&& LSR_THRE ≠ 0)
    (hready : statusReading arch hw devContext (s.reads + j) &&& LSR_THRE ≠ 0) :
    SerioEvtIoWrite arch hw devContext Request Length s =
      (⟨(WdfRequestRetrieveInputBuffer Request Length).1, 1⟩,
        WRITE_PORT_UCHAR (thrPort arch devContext)
          (bufferByte (WdfRequestRetrieveInputBuffer Request Length).2 0)
          (READ_PORT_UCHAR hw (lsrPort arch devContext)
            (busyPolls arch hw devContext j s)).2) := by
  have h := pollLoop_first_ready arch hw devContext
    (bufferByte (WdfRequestRetrieveInputBuffer Request Length).2 0) j ⟨0, 0, s⟩
    (by simpa using hj) hbusy hready
  simp only [SerioEvtIoWrite, if_neg hLen, hBuf, h]
  simp only [Nat.zero_add, ge_iff_le, Nat.not_le.mpr hj]
  simp

theorem SerioEvtIoWrite_never (Length : Nat) (s : IoState) (hLen : Length ≠ 0)
    (hBuf : NT_SUCCESS (WdfRequestRetrieveInputBuffer Request Length).1 = true)
    (hbusy : ∀ i, i < MAX_TX_ATTEMPTS →
      ¬ statusReading arch hw devContext (s.reads + i) &&& LSR_THRE ≠ 0) :
    SerioEvtIoWrite arch hw devContext Request Length s =
      (⟨(WdfRequestRetrieveInputBuffer Request Length).1, 0⟩,
        busyPolls arch hw devContext MAX_TX_ATTEMPTS s) := by
  have h : pollLoop arch hw devContext
      (bufferByte (WdfRequestRetrieveInputBuffer Request Length).2 0) ⟨0, 0, s⟩ =
      ⟨0, MAX_TX_ATTEMPTS, busyPolls arch hw devContext MAX_TX_ATTEMPTS s⟩ :=
    pollLoop_never arch hw devContext _ ⟨0, 0, s⟩ (Nat.zero_le _) hbusy
  unfold SerioEvtIoWrite
  rw [if_neg hLen]
  simp only [hBuf, h]
  simp

theorem thrAddress_eq (h : devContext.PortBase < 2 ^ arch.ptrBits) :
    thrAddress arch devContext = devContext.PortBase + UART_THR := by
  simp [thrAddress, UART_THR, Nat.mod_eq_of_lt h]

theorem thrPort_eq (h : devContext.PortBase < 2 ^ 16) :
    thrPort arch devContext = devContext.PortBase + UART_THR := by
  have hw : devContext.PortBase < 2 ^ arch.ptrBits := by
    cases arch
    · exact Nat.lt_trans h (by decide)
    · exact Nat.lt_trans h (by decide)
  rw [thrPort, thrAddress_eq arch devContext hw]
  exact Nat.mod_eq_of_lt h

end Dispatcher


/-! ## Counting the accesses of a run -/

section Counting

variable (arch : Arch) (hw : Hardware) (devContext : DEVICE_CONTEXT)

theorem polls_after_ready (j : Nat) (s : IoState) (p v : Nat) :
    polls (WRITE_PORT_UCHAR p v
      (READ_PORT_UCHAR hw (lsrPort arch devContext)
        (busyPolls arch hw devContext j s)).2).trace = polls s.trace + (j + 1) := by
  simp only [WRITE_PORT_UCHAR, portOut, READ_PORT_UCHAR, portIn, polls_append,
    busyPolls_polls]
  simp [polls, PortEvent.isRead, Nat.add_assoc]

theorem stalls_after_ready (j : Nat) (s : IoState) (p v : Nat) :
    stalls (WRITE_PORT_UCHAR p v
      (READ_PORT_UCHAR hw (lsrPort arch devContext)
        (busyPolls arch hw devContext j s)).2).trace = stalls s.trace + j := by
  simp only [WRITE_PORT_UCHAR, portOut, READ_PORT_UCHAR, portIn, stalls_append,
    busyPolls_stalls]
  simp [stalls, PortEvent.isStall]

theorem writes_after_ready (j : Nat) (s : IoState) (p v : Nat) :
    writes (WRITE_PORT_UCHAR p v
      (READ_PORT_UCHAR hw (lsrPort arch devContext)
        (busyPolls arch hw devContext j s)).2).trace
      = writes s.trace ++ [(p % 2 ^ 16, v % 256)] := by
  simp only [WRITE_PORT_UCHAR, portOut, READ_PORT_UCHAR, portIn, writes_append,
    busyPolls_writes]
  simp [writes, PortEvent.asWrite]

/-- Among the `n` readings that follow the first `r` either none shows THRE, or
there is a first one that does. -/
theorem first_ready_or_never (r n : Nat) :
    (∀ i, i < n → ¬ statusReading arch hw devContext (r + i) &&& LSR_THRE ≠ 0) ∨
    ∃ j, j < n ∧ statusReading arch hw devContext (r + j) &&& LSR_THRE ≠ 0 ∧
      ∀ i, i < j → ¬ statusReading arch hw devContext (r + i) &&& LSR_THRE ≠ 0 := by
  induction n with
  | zero => exact Or.inl (fun i hi => absurd hi (Nat.not_lt_zero i))
  | succ n ih =>
    rcases ih with hnone | ⟨j, hj, hr, hb⟩
    · by_cases hn : statusReading arch hw devContext (r + n) &&& LSR_THRE ≠ 0
      · exact Or.inr ⟨n, Nat.lt_succ_self n, hn, hnone⟩
      · left
        intro i hi
        rcases Nat.lt_succ_iff_lt_or_eq.mp hi with h | h
        · exact hnone i h
        · rw [h]; exact hn
    · exact Or.inr ⟨j, Nat.lt_succ_of_lt hj, hr, hb⟩

end Counting

/-! ## Properties of the write dispatcher

The statements take an arbitrary I/O state `s` before the call: the readings
the call sees are those numbered `s.reads`, `s.reads + 1`, ... (poll 1, poll
2, ...), and the accesses of the call are what its trace adds to `s.trace`. -/

/-- C1: a write request of length 0 is completed with STATUS_INVALID_PARAMETER,
which is an error status, and with 0 bytes written, for every target, device
context, request and hardware; the call makes no port access at all: the I/O
state after it (read count and trace) is the state before it, so from the
initial state the trace stays empty (no status read, no data write, no stall). -/
theorem C1_zero_length_rejected (arch : Arch) (hw : Hardware) (devContext : DEVICE_CONTEXT)
    (Request : WDFREQUEST) (s : IoState) :
    (SerioEvtIoWrite arch hw devContext Request 0 s).1 = ⟨STATUS_INVALID_PARAMETER, 0⟩ ∧
    NT_SUCCESS STATUS_INVALID_PARAMETER = false ∧
    (SerioEvtIoWrite arch hw devContext Request 0 s).2 = s ∧
    (SerioEvtIoWrite arch hw devContext Request 0 IoState.init).2.trace = [] := by
  rw [SerioEvtIoWrite_zero, SerioEvtIoWrite_zero]
  exact ⟨rfl, by decide, rfl, rfl⟩

/-- C2: for a request of non-zero length whose input buffer was retrieved, and
status readings whose first one with bit 0x20 set is the reading of poll `k`,
`1 ≤ k ≤ MAX_TX_ATTEMPTS`, the request is completed with the (success) status of
the retrieval and bytesWritten = 1, and the call makes exactly one port write,
of `pBuffer[0]` to the transmit-holding register, whose address is
`PortBase + 0` for a pointer-sized `PortBase`. -/
theorem C2_ready_within_bound_transmits (arch : Arch) (hw : Hardware)
    (devContext : DEVICE_CONTEXT) (Request : WDFREQUEST) (Length k : Nat) (s : IoState)
    (hLen : Length ≠ 0)
    (hBuf : NT_SUCCESS (WdfRequestRetrieveInputBuffer Request Length).1 = true)
    (hk1 : 1 ≤ k) (hk : k ≤ MAX_TX_ATTEMPTS)
    (hbusy : ∀ i, i < k - 1 →
      ¬ statusReading arch hw devContext (s.reads + i) &&& LSR_THRE ≠ 0)
    (hready : statusReading arch hw devContext (s.reads + (k - 1)) &&& LSR_THRE ≠ 0) :
    NT_SUCCESS (SerioEvtIoWrite arch hw devContext Request Length s).1.status = true ∧
    (SerioEvtIoWrite arch hw devContext Request Length s).1.status
      = (WdfRequestRetrieveInputBuffer Request Length).1 ∧
    (SerioEvtIoWrite arch hw devContext Request Length s).1.bytesWritten = 1 ∧
    writes (SerioEvtIoWrite arch hw devContext Request Length s).2.trace
      = writes s.trace ++
        [(thrPort arch devContext,
          bufferByte (WdfRequestRetrieveInputBuffer Request Length).2 0)] ∧
    (devContext.PortBase < 2 ^ arch.ptrBits →
      thrAddress arch devContext = devContext.PortBase + 0) ∧
    thrPort arch devContext = thrAddress arch devContext % 2 ^ 16 ∧
    (devContext.PortBase < 2 ^ 16 →
      thrPort arch devContext = devContext.PortBase + 0) := by
  have h := SerioEvtIoWrite_first_ready arch hw devContext Request Length s
    (k - 1) hLen hBuf (by omega) hbusy hready
  rw [h]
  refine ⟨hBuf, rfl, rfl, ?_, fun hp => thrAddress_eq arch devContext hp, rfl,
    fun hp => thrPort_eq arch devContext hp⟩
  rw [writes_after_ready, thrPort_mod]
  simp [bufferByte]

/-- Witness of C2: the buffer "A", the transmitter ready on poll 1, on COM1:
one byte written, and the transmit-holding register 0x3F8 receives 0x41. -/
theorem C2_witness_scenario_A :
    (SerioEvtIoWrite Arch.amd64 hwAlwaysReady ctxCom1 requestA 1 IoState.init).1.bytesWritten
      = 1 ∧
    writes (SerioEvtIoWrite Arch.amd64 hwAlwaysReady ctxCom1 requestA 1 IoState.init).2.trace
      = [(0x3F8, 0x41)] := by
  have h := C2_ready_within_bound_transmits Arch.amd64 hwAlwaysReady ctxCom1 requestA 1 1
    IoState.init (by decide) (by decide) (by decide) (by decide) (by intro i hi; omega)
    (by decide)
  exact ⟨h.2.2.1, h.2.2.2.1⟩

/-- C3: for a request of non-zero length whose input buffer was retrieved, and
status readings none of whose first MAX_TX_ATTEMPTS has bit 0x20 set, the
request is completed with the (success) status of the retrieval, not an error,
and bytesWritten = 0, and the call makes no port write. -/
theorem C3_never_ready_short_write (arch : Arch) (hw : Hardware)
    (devContext : DEVICE_CONTEXT) (Request : WDFREQUEST) (Length : Nat) (s : IoState)
    (hLen : Length ≠ 0)
    (hBuf : NT_SUCCESS (WdfRequestRetrieveInputBuffer Request Length).1 = true)
    (hbusy : ∀ i, i < MAX_TX_ATTEMPTS →
      ¬ statusReading arch hw devContext (s.reads + i) &&& LSR_THRE ≠ 0) :
    NT_SUCCESS (SerioEvtIoWrite arch hw devContext Request Length s).1.status = true ∧
    (SerioEvtIoWrite arch hw devContext Request Length s).1.status
      = (WdfRequestRetrieveInputBuffer Request Length).1 ∧
    (SerioEvtIoWrite arch hw devContext Request Length s).1.bytesWritten = 0 ∧
    writes (SerioEvtIoWrite arch hw devContext Request Length s).2.trace
      = writes s.trace := by
  have h := SerioEvtIoWrite_never arch hw devContext Request Length s hLen hBuf hbusy
  rw [h]
  exact ⟨hBuf, rfl, rfl, busyPolls_writes arch hw devContext _ s⟩

/-- Witness of C3: the buffer "A" on COM1 with a status register that never
shows THRE: success status, 0 bytes written, no port write. -/
theorem C3_witness_scenario_C :
    (SerioEvtIoWrite Arch.amd64 hwNeverReady ctxCom1 requestA 1 IoState.init).1.status
      = STATUS_SUCCESS ∧
    (SerioEvtIoWrite Arch.amd64 hwNeverReady ctxCom1 requestA 1 IoState.init).1.bytesWritten
      = 0 ∧
    writes (SerioEvtIoWrite Arch.amd64 hwNeverReady ctxCom1 requestA 1 IoState.init).2.trace
      = [] := by
  have h := C3_never_ready_short_write Arch.amd64 hwNeverReady ctxCom1 requestA 1
    IoState.init (by decide) (by decide)
    (by intro i _; simp [statusReading, hwNeverReady])
  exact ⟨h.2.1, h.2.2.1, h.2.2.2⟩

/-- C4, as stated, fails: a request of length 1 whose input buffer the framework
does not hand out, with the transmitter ready from the first reading on (first
ready poll k = 1): the call makes no poll at all, not min(1, 100) = 1. -/
theorem C4_counterexample_failed_retrieval :
    (1 : Nat) ≥ 1 ∧
    statusReading Arch.amd64 hwAlwaysReady ctxCom1 (1 - 1) &&& LSR_THRE ≠ 0 ∧
    polls (SerioEvtIoWrite Arch.amd64 hwAlwaysReady ctxCom1 requestFailed 1
      IoState.init).2.trace = 0 ∧
    polls (SerioEvtIoWrite Arch.amd64 hwAlwaysReady ctxCom1 requestFailed 1
      IoState.init).2.trace ≠ min 1 MAX_TX_ATTEMPTS := by
  decide

/-- C4, amended: the number of status reads of a call never exceeds
MAX_TX_ATTEMPTS, so the loop always ends; it is 0 when the length is 0 or the
input buffer is not retrieved; for a request of non-zero length whose input
buffer is retrieved it is exactly min(k, MAX_TX_ATTEMPTS) when the first reading
with bit 0x20 set is that of poll `k`, and exactly MAX_TX_ATTEMPTS when none of
the first MAX_TX_ATTEMPTS readings has the bit set. -/
theorem C4_poll_count (arch : Arch) (hw : Hardware) (devContext : DEVICE_CONTEXT)
    (Request : WDFREQUEST) (Length : Nat) (s : IoState) :
    polls (SerioEvtIoWrite arch hw devContext Request Length s).2.trace
      ≤ polls s.trace + MAX_TX_ATTEMPTS ∧
    ((Length = 0 ∨ NT_SUCCESS (WdfRequestRetrieveInputBuffer Request Length).1 = false) →
      polls (SerioEvtIoWrite arch hw devContext Request Length s).2.trace
        = polls s.trace) ∧
    (Length ≠ 0 → NT_SUCCESS (WdfRequestRetrieveInputBuffer Request Length).1 = true →
      (∀ k, 1 ≤ k →
        (∀ i, i < k - 1 →
          ¬ statusReading arch hw devContext (s.reads + i) &&& LSR_THRE ≠ 0) →
        statusReading arch hw devContext (s.reads + (k - 1)) &&& LSR_THRE ≠ 0 →
        polls (SerioEvtIoWrite arch hw devContext Request Length s).2.trace
          = polls s.trace + min k MAX_TX_ATTEMPTS) ∧
      ((∀ i, i < MAX_TX_ATTEMPTS →
          ¬ statusReading arch hw devContext (s.reads + i) &&& LSR_THRE ≠ 0) →
        polls (SerioEvtIoWrite arch hw devContext Request Length s).2.trace
          = polls s.trace + MAX_TX_ATTEMPTS)) := by
  have hfail : (Length = 0 ∨
      NT_SUCCESS (WdfRequestRetrieveInputBuffer Request Length).1 = false) →
      polls (SerioEvtIoWrite arch hw devContext Request Length s).2.trace
        = polls s.trace := by
    intro h
    by_cases hLen : Length = 0
    · subst hLen
      rw [SerioEvtIoWrite_zero]
    · rcases h with h | h
      · exact absurd h hLen
      · rw [SerioEvtIoWrite_retrieve_failed arch hw devContext Request Length _ hLen h]
  have hnever : Length ≠ 0 →
      NT_SUCCESS (WdfRequestRetrieveInputBuffer Request Length).1 = true →
      (∀ i, i < MAX_TX_ATTEMPTS →
        ¬ statusReading arch hw devContext (s.reads + i) &&& LSR_THRE ≠ 0) →
      polls (SerioEvtIoWrite arch hw devContext Request Length s).2.trace
        = polls s.trace + MAX_TX_ATTEMPTS := by
    intro hLen hBuf hb
    rw [SerioEvtIoWrite_never arch hw devContext Request Length s hLen hBuf hb,
      busyPolls_polls]
  have hfirst : Length ≠ 0 →
      NT_SUCCESS (WdfRequestRetrieveInputBuffer Request Length).1 = true →
      ∀ j, j < MAX_TX_ATTEMPTS →
      (∀ i, i < j → ¬ statusReading arch hw devContext (s.reads + i) &&& LSR_THRE ≠ 0) →
      statusReading arch hw devContext (s.reads + j) &&& LSR_THRE ≠ 0 →
      polls (SerioEvtIoWrite arch hw devContext Request Length s).2.trace
        = polls s.trace + (j + 1) := by
    intro hLen hBuf j hj hb hr
    rw [SerioEvtIoWrite_first_ready arch hw devContext Request Length s j hLen
      hBuf hj hb hr, polls_after_ready]
  refine ⟨?_, hfail, fun hLen hBuf => ⟨?_, hnever hLen hBuf⟩⟩
  · by_cases hLen : Length = 0
    · rw [hfail (Or.inl hLen)]
      omega
    · cases hBuf : NT_SUCCESS (WdfRequestRetrieveInputBuffer Request Length).1 with
      | false =>
        rw [hfail (Or.inr hBuf)]
        omega
      | true =>
        rcases first_ready_or_never arch hw devContext s.reads MAX_TX_ATTEMPTS with
          hb | ⟨j, hj, hr, hb⟩
        · rw [hnever hLen hBuf hb]
        · rw [hfirst hLen hBuf j hj hb hr]
          omega
  · intro k hk1 hb hr
    by_cases hk : k ≤ MAX_TX_ATTEMPTS
    · rw [hfirst hLen hBuf (k - 1) (by omega) hb hr, Nat.min_eq_left hk]
      omega
    · rw [hnever hLen hBuf (fun i hi => hb i (by omega)), Nat.min_eq_right (by omega)]

/-- Witness of C4 (amended): the buffer "A" on COM1; with the transmitter ready
only on poll 5 the call makes exactly 5 status reads, and with a transmitter
that is never ready exactly 100. -/
theorem C4_witness_scenarios_B_C :
    polls (SerioEvtIoWrite Arch.amd64 (hwReadyOnPoll 5) ctxCom1 requestA 1
      IoState.init).2.trace = 5 ∧
    polls (SerioEvtIoWrite Arch.amd64 hwNeverReady ctxCom1 requestA 1
      IoState.init).2.trace = 100 := by
  constructor
  · exact (C4_poll_count Arch.amd64 (hwReadyOnPoll 5) ctxCom1 requestA 1 IoState.init).2.2
      (by decide) (by decide) |>.1 5 (by decide) (by decide) (by decide)
  · exact (C4_poll_count Arch.amd64 hwNeverReady ctxCom1 requestA 1 IoState.init).2.2
      (by decide) (by decide) |>.2 (by intro i _; simp [statusReading, hwNeverReady])

/-- C5: for every request of non-zero length, target, device context and
hardware, the call reports at most 1 byte written; it makes either no port
write or the single write of `pBuffer[0]` to the transmit-holding register;
and its completion and its whole I/O state (trace included) are those of any
other request of non-zero length with the same retrieval status and the same
first byte: the other bytes of the buffer and the value of Length play no part. -/
theorem C5_first_byte_only (arch : Arch) (hw : Hardware) (devContext : DEVICE_CONTEXT)
    (Request : WDFREQUEST) (Length : Nat) (s : IoState) (hLen : Length ≠ 0) :
    (SerioEvtIoWrite arch hw devContext Request Length s).1.bytesWritten ≤ 1 ∧
    (writes (SerioEvtIoWrite arch hw devContext Request Length s).2.trace
      = writes s.trace ∨
     writes (SerioEvtIoWrite arch hw devContext Request Length s).2.trace
      = writes s.trace ++
        [(thrPort arch devContext,
          bufferByte (WdfRequestRetrieveInputBuffer Request Length).2 0)]) ∧
    (∀ (Request2 : WDFREQUEST) (Length2 : Nat), Length2 ≠ 0 →
      (WdfRequestRetrieveInputBuffer Request2 Length2).1
        = (WdfRequestRetrieveInputBuffer Request Length).1 →
      bufferByte (WdfRequestRetrieveInputBuffer Request2 Length2).2 0
        = bufferByte (WdfRequestRetrieveInputBuffer Request Length).2 0 →
      SerioEvtIoWrite arch hw devContext Request2 Length2 s
        = SerioEvtIoWrite arch hw devContext Request Length s) := by
  refine ⟨?_, ?_, ?_⟩
  · cases hBuf : NT_SUCCESS (WdfRequestRetrieveInputBuffer Request Length).1 with
    | false =>
      rw [SerioEvtIoWrite_retrieve_failed arch hw devContext Request Length _ hLen hBuf]
      exact Nat.zero_le 1
    | true =>
      rcases first_ready_or_never arch hw devContext s.reads MAX_TX_ATTEMPTS with
        hb | ⟨j, hj, hr, hb⟩
      · rw [SerioEvtIoWrite_never arch hw devContext Request Length s hLen hBuf hb]
        exact Nat.zero_le 1
      · rw [SerioEvtIoWrite_first_ready arch hw devContext Request Length s j
          hLen hBuf hj hb hr]
  · cases hBuf : NT_SUCCESS (WdfRequestRetrieveInputBuffer Request Length).1 with
    | false =>
      rw [SerioEvtIoWrite_retrieve_failed arch hw devContext Request Length _ hLen hBuf]
      exact Or.inl rfl
    | true =>
      rcases first_ready_or_never arch hw devContext s.reads MAX_TX_ATTEMPTS with
        hb | ⟨j, hj, hr, hb⟩
      · rw [SerioEvtIoWrite_never arch hw devContext Request Length s hLen hBuf hb,
          busyPolls_writes]
        exact Or.inl rfl
      · rw [SerioEvtIoWrite_first_ready arch hw devContext Request Length s j
          hLen hBuf hj hb hr, writes_after_ready, thrPort_mod]
        right
        simp [bufferByte]
  · intro Request2 Length2 hLen2 hst hb0
    unfold SerioEvtIoWrite
    rw [if_neg hLen, if_neg hLen2]
    simp only [hst, hb0]

/-- Witness of C5: on COM1 with the transmitter ready, a request of length 3
whose buffer is "A", 0, 0 is completed with at most one byte written. -/
theorem C5_witness_length_three :
    (SerioEvtIoWrite Arch.amd64 hwAlwaysReady ctxCom1 requestA 3 IoState.init).1.bytesWritten
      ≤ 1 :=
  (C5_first_byte_only Arch.amd64 hwAlwaysReady ctxCom1 requestA 3 IoState.init
    (by decide)).1

/-- C6, as stated, fails: a request of length 1 whose input buffer the framework
does not hand out is completed with the framework's error status, although
its length is not 0. -/
theorem C6_counterexample_failed_retrieval :
    (1 : Nat) ≠ 0 ∧
    (SerioEvtIoWrite Arch.amd64 hwAlwaysReady ctxCom1 requestFailed 1 IoState.init).1.status
      = STATUS_INSUFFICIENT_RESOURCES ∧
    NT_SUCCESS (SerioEvtIoWrite Arch.amd64 hwAlwaysReady ctxCom1 requestFailed 1
      IoState.init).1.status = false := by
  decide

/-- C6, amended: for every request, retrieval outcome and hardware, the request
is completed with a non-success status exactly when its length is 0 or the
retrieval of its input buffer fails; with a non-zero length and a retrieved
buffer it is completed with the retrieval's success status, whatever the
hardware does. -/
theorem C6_error_only_without_buffer (arch : Arch) (hw : Hardware)
    (devContext : DEVICE_CONTEXT) (Request : WDFREQUEST) (Length : Nat) (s : IoState) :
    (NT_SUCCESS (SerioEvtIoWrite arch hw devContext Request Length s).1.status = false ↔
      (Length = 0 ∨ NT_SUCCESS (WdfRequestRetrieveInputBuffer Request Length).1 = false)) ∧
    (Length ≠ 0 → (SerioEvtIoWrite arch hw devContext Request Length s).1.status
      = (WdfRequestRetrieveInputBuffer Request Length).1) := by
  by_cases hLen : Length = 0
  · subst hLen
    rw [SerioEvtIoWrite_zero]
    have herr : NT_SUCCESS STATUS_INVALID_PARAMETER = false := by decide
    exact ⟨⟨fun _ => Or.inl rfl, fun _ => herr⟩, fun h => absurd rfl h⟩
  · have hst : (SerioEvtIoWrite arch hw devContext Request Length s).1.status
        = (WdfRequestRetrieveInputBuffer Request Length).1 := by
      unfold SerioEvtIoWrite
      rw [if_neg hLen]
      simp only
      split
      · rfl
      · split <;> rfl
    rw [hst]
    exact ⟨⟨fun h => Or.inr h, fun h => h.resolve_left hLen⟩, fun _ => rfl⟩


/-! ## The UART helpers of `portio_asm.h` -/

/-- The mask test `lsr & 0x20` on a byte reads bit 5 of the value. -/
theorem thre_mask_iff_testBit (v : Nat) : (v % 256 &&& 0x20 ≠ 0) ↔ v.testBit 5 = true := by
  have h : v % 256 &&& 2 ^ 5 = ((v % 256).testBit 5).toNat * 2 ^ 5 := Nat.and_two_pow _ _
  have hm : (v % 2 ^ 8).testBit 5 = v.testBit 5 := by
    rw [Nat.testBit_mod_two_pow]
    simp
  have h256 : (256 : Nat) = 2 ^ 8 := by norm_num
  have h32 : (0x20 : Nat) = 2 ^ 5 := by norm_num
  rw [h32, h, h256, hm]
  cases v.testBit 5 <;> simp

theorem ReadSerialLSR_eq (arch : Arch) (hw : Hardware) (port_base : Nat) (s : IoState)
    (hp : port_base < 2 ^ 16) :
    ReadSerialLSR arch hw port_base s =
      (hw s.reads (uartLsrPort arch port_base) % 256,
       ⟨s.reads + 1, s.trace ++ [PortEvent.read (uartLsrPort arch port_base)
          (hw s.reads (uartLsrPort arch port_base) % 256)]⟩) := by
  norm_num at hp
  have h16 : port_base % 65536 = port_base := Nat.mod_eq_of_lt hp
  have h64 : (port_base + 5) % 18446744073709551616 = port_base + 5 :=
    Nat.mod_eq_of_lt (by omega)
  cases arch
  · simp [ReadSerialLSR, ReadByteFromPort, portIn, uartLsrPort, UART_LSR, h16]
  · simp [ReadSerialLSR, READ_PORT_UCHAR, portIn, uartLsrPort, UART_LSR, h16, h64]

theorem WriteByteToTHR_eq (arch : Arch) (port_base byte : Nat) (s : IoState)
    (hp : port_base < 2 ^ 16) (hb : byte < 256) :
    WriteByteToTHR arch port_base byte s =
      ⟨s.reads, s.trace ++ [PortEvent.write port_base byte]⟩ := by
  norm_num at hp
  have h16 : port_base % 65536 = port_base := Nat.mod_eq_of_lt hp
  have h64 : port_base % 18446744073709551616 = port_base := Nat.mod_eq_of_lt (by omega)
  have h8 : byte % 256 = byte := Nat.mod_eq_of_lt hb
  cases arch
  · simp [WriteByteToTHR, WriteByteToPort, portOut, h16, h8]
  · simp [WriteByteToTHR, WRITE_PORT_UCHAR, portOut, h16, h8, h64]

theorem IsTransmitterReady_eq (arch : Arch) (hw : Hardware) (port_base : Nat) (s : IoState)
    (hp : port_base < 2 ^ 16) :
    IsTransmitterReady arch hw port_base s =
      (decide (hw s.reads (uartLsrPort arch port_base) % 256 &&& 0x20 ≠ 0),
       ⟨s.reads + 1, s.trace ++ [PortEvent.read (uartLsrPort arch port_base)
          (hw s.reads (uartLsrPort arch port_base) % 256)]⟩) := by
  unfold IsTransmitterReady
  rw [Nat.mod_eq_of_lt hp, ReadSerialLSR_eq arch hw port_base s hp]
  simp


theorem uartLsrPort_eq (arch : Arch) (port_base : Nat)
    (h : port_base + UART_LSR < 2 ^ 16) :
    uartLsrPort arch port_base = port_base + UART_LSR := by
  cases arch
  · exact Nat.mod_eq_of_lt h
  · exact Nat.mod_eq_of_lt h

theorem TryTransmitByte_eq (arch : Arch) (hw : Hardware) (port_base byte : Nat)
    (s : IoState) (hp : port_base < 2 ^ 16) (hb : byte < 256) :
    TryTransmitByte arch hw port_base byte s =
      if hw s.reads (uartLsrPort arch port_base) % 256 &&& 0x20 ≠ 0 then
        (true, ⟨s.reads + 1, s.trace ++
          [PortEvent.read (uartLsrPort arch port_base)
             (hw s.reads (uartLsrPort arch port_base) % 256),
           PortEvent.write port_base byte]⟩)
      else
        (false, ⟨s.reads + 1, s.trace ++
          [PortEvent.read (uartLsrPort arch port_base)
             (hw s.reads (uartLsrPort arch port_base) % 256)]⟩) := by
  unfold TryTransmitByte
  rw [Nat.mod_eq_of_lt hp, Nat.mod_eq_of_lt hb, IsTransmitterReady_eq arch hw port_base s hp]
  by_cases hr : hw s.reads (uartLsrPort arch port_base) % 256 &&& 0x20 ≠ 0
  · rw [if_pos hr]
    simp only [decide_eq_true hr, if_true]
    rw [WriteByteToTHR_eq arch port_base byte _ hp hb]
    simp
  · rw [if_neg hr]
    simp only [decide_eq_false hr]
    simp

/-- C7: for every target, 16-bit port base, byte and hardware,
`TryTransmitByte(base, byte)` makes exactly one read, of the status register
(offset 5 from the base); if the value read has bit 0x20 set it then makes
exactly one write, of `byte` to the transmit-holding register at offset 0 from
the base, and returns TRUE; otherwise it makes no write and returns FALSE.  In
both cases it makes one poll and no stall: it does not loop or wait. -/
theorem C7_TryTransmitByte_single_attempt (arch : Arch) (hw : Hardware)
    (port_base byte : Nat) (s : IoState) (hp : port_base < 2 ^ 16) (hb : byte < 256) :
    (TryTransmitByte arch hw port_base byte s =
      if hw s.reads (uartLsrPort arch port_base) % 256 &&& 0x20 ≠ 0 then
        (true, ⟨s.reads + 1, s.trace ++
          [PortEvent.read (uartLsrPort arch port_base)
             (hw s.reads (uartLsrPort arch port_base) % 256),
           PortEvent.write (port_base + UART_THR) byte]⟩)
      else
        (false, ⟨s.reads + 1, s.trace ++
          [PortEvent.read (uartLsrPort arch port_base)
             (hw s.reads (uartLsrPort arch port_base) % 256)]⟩)) ∧
    polls (TryTransmitByte arch hw port_base byte s).2.trace = polls s.trace + 1 ∧
    stalls (TryTransmitByte arch hw port_base byte s).2.trace = stalls s.trace ∧
    (port_base + UART_LSR < 2 ^ 16 → uartLsrPort arch port_base = port_base + UART_LSR) := by
  have h := TryTransmitByte_eq arch hw port_base byte s hp hb
  refine ⟨h, ?_, ?_, uartLsrPort_eq arch port_base⟩
  · rw [h]
    split <;> simp [polls_append, polls, PortEvent.isRead]
  · rw [h]
    split <;> simp [stalls_append, stalls, PortEvent.isStall]

/-- Witness of C7: on x86 at COM1 with the transmitter ready, `TryTransmitByte`
of "A" returns TRUE after the read of port 0x3FD and the write of 0x41 to port
0x3F8. -/
theorem C7_witness_com1 :
    TryTransmitByte Arch.x86 hwAlwaysReady 0x3F8 0x41 IoState.init =
      (true, ⟨1, [PortEvent.read 0x3FD 0x60, PortEvent.write 0x3F8 0x41]⟩) :=
  (C7_TryTransmitByte_single_attempt Arch.x86 hwAlwaysReady 0x3F8 0x41 IoState.init
    (by decide) (by decide)).1.trans (by decide)

/-- C8: for every target, 16-bit port base and hardware, with `v` the 8-bit value
the status register (offset 5 from the base) returns, `IsTransmitterReady(base)`
returns TRUE exactly when `v & 0x20` is non-zero, that is, its result is bit 5
of `v` and no other bit of `v` plays a part; it makes that one read and no port
write. -/
theorem C8_IsTransmitterReady_bit5 (arch : Arch) (hw : Hardware) (port_base v : Nat)
    (s : IoState) (hp : port_base < 2 ^ 16) (hv : v < 256)
    (hread : hw s.reads (uartLsrPort arch port_base) = v) :
    ((IsTransmitterReady arch hw port_base s).1 = true ↔ v &&& 0x20 ≠ 0) ∧
    (IsTransmitterReady arch hw port_base s).1 = v.testBit 5 ∧
    (IsTransmitterReady arch hw port_base s).2.trace
      = s.trace ++ [PortEvent.read (uartLsrPort arch port_base) v] ∧
    writes (IsTransmitterReady arch hw port_base s).2.trace = writes s.trace ∧
    (port_base + UART_LSR < 2 ^ 16 → uartLsrPort arch port_base = port_base + UART_LSR) := by
  have hv8 : v % 256 = v := Nat.mod_eq_of_lt hv
  rw [IsTransmitterReady_eq arch hw port_base s hp, hread, hv8]
  refine ⟨by simp, ?_, rfl, ?_, uartLsrPort_eq arch port_base⟩
  · have hb := thre_mask_iff_testBit v
    rw [hv8] at hb
    cases ht : v.testBit 5 with
    | true => exact decide_eq_true (hb.mpr ht)
    | false =>
      refine decide_eq_false (fun hne => ?_)
      rw [hb.mp hne] at ht
      exact Bool.noConfusion ht
  · simp [writes_append, writes, PortEvent.asWrite]

/-- Witness of C8: on x86 at COM1 the status value 0x60 (THRE and TSRE) makes
`IsTransmitterReady` return TRUE. -/
theorem C8_witness_com1 :
    (IsTransmitterReady Arch.x86 hwAlwaysReady 0x3F8 IoState.init).1 = Nat.testBit 0x60 5 :=
  (C8_IsTransmitterReady_bit5 Arch.x86 hwAlwaysReady 0x3F8 0x60 IoState.init
    (by decide) (by decide) (by decide)).2.1


/-! ## The two backends of `portio_asm.h` -/

theorem ReadByteFromPort_arch (hw : Hardware) (port : Nat) (s : IoState) :
    ReadByteFromPort Arch.x86 hw port s = ReadByteFromPort Arch.amd64 hw port s := by
  have h : port % 18446744073709551616 % 65536 = port % 65536 :=
    Nat.mod_mod_of_dvd port (by decide)
  simp [ReadByteFromPort, READ_PORT_UCHAR, h]

theorem WriteByteToPort_arch (port value : Nat) (s : IoState) :
    WriteByteToPort Arch.x86 port value s = WriteByteToPort Arch.amd64 port value s := by
  have h : port % 18446744073709551616 % 65536 = port % 65536 :=
    Nat.mod_mod_of_dvd port (by decide)
  simp [WriteByteToPort, WRITE_PORT_UCHAR, portOut, h]

theorem WriteByteToTHR_arch (port_base byte : Nat) (s : IoState) :
    WriteByteToTHR Arch.x86 port_base byte s = WriteByteToTHR Arch.amd64 port_base byte s := by
  have h16 : port_base % 65536 < 18446744073709551616 :=
    Nat.lt_trans (Nat.mod_lt _ (by norm_num)) (by norm_num)
  simp [WriteByteToTHR, WriteByteToPort, WRITE_PORT_UCHAR, portOut, Nat.mod_eq_of_lt h16]

theorem ReadSerialLSR_arch (hw : Hardware) (port_base : Nat) (s : IoState) :
    ReadSerialLSR Arch.x86 hw port_base s = ReadSerialLSR Arch.amd64 hw port_base s := by
  have h64 : (port_base % 65536 + 5) % 18446744073709551616 = port_base % 65536 + 5 :=
    Nat.mod_eq_of_lt (by omega)
  simp [ReadSerialLSR, ReadByteFromPort, READ_PORT_UCHAR, h64]

theorem IsTransmitterReady_arch (hw : Hardware) (port_base : Nat) (s : IoState) :
    IsTransmitterReady Arch.x86 hw port_base s
      = IsTransmitterReady Arch.amd64 hw port_base s := by
  unfold IsTransmitterReady
  rw [ReadSerialLSR_arch]

theorem TryTransmitByte_arch (hw : Hardware) (port_base byte : Nat) (s : IoState) :
    TryTransmitByte Arch.x86 hw port_base byte s
      = TryTransmitByte Arch.amd64 hw port_base byte s := by
  unfold TryTransmitByte
  rw [IsTransmitterReady_arch]
  simp only [WriteByteToTHR_arch]

/-- C9: the two port backends are functionally identical: for every port base
(every 16-bit one, those from 0xFFFB to 0xFFFF included, where `port_base + 5`
exceeds 16 bits), every byte, every hardware and every I/O state, the x86
versions (inline `in`/`out`) and the AMD64 versions (`READ_PORT_UCHAR` /
`WRITE_PORT_UCHAR`) of `ReadSerialLSR`, `WriteByteToTHR`, `IsTransmitterReady`
and `TryTransmitByte` return the same result and leave the same I/O state,
that is, they access the same ports in the same order with the same values;
so do the two versions of `ReadByteFromPort` and `WriteByteToPort`.  The status
read of both is made at port `(port_base + 5) mod 2^16`. -/
theorem C9_backends_identical (hw : Hardware) (port_base byte : Nat) (s : IoState) :
    ReadSerialLSR Arch.x86 hw port_base s = ReadSerialLSR Arch.amd64 hw port_base s ∧
    WriteByteToTHR Arch.x86 port_base byte s = WriteByteToTHR Arch.amd64 port_base byte s ∧
    IsTransmitterReady Arch.x86 hw port_base s
      = IsTransmitterReady Arch.amd64 hw port_base s ∧
    TryTransmitByte Arch.x86 hw port_base byte s
      = TryTransmitByte Arch.amd64 hw port_base byte s ∧
    ReadByteFromPort Arch.x86 hw port_base s = ReadByteFromPort Arch.amd64 hw port_base s ∧
    WriteByteToPort Arch.x86 port_base byte s = WriteByteToPort Arch.amd64 port_base byte s ∧
    (port_base < 2 ^ 16 →
      readPorts (ReadSerialLSR Arch.x86 hw port_base s).2.trace
        = readPorts s.trace ++ [(port_base + 5) % 2 ^ 16] ∧
      readPorts (ReadSerialLSR Arch.amd64 hw port_base s).2.trace
        = readPorts s.trace ++ [(port_base + 5) % 2 ^ 16]) := by
  refine ⟨ReadSerialLSR_arch hw port_base s, WriteByteToTHR_arch port_base byte s,
    IsTransmitterReady_arch hw port_base s, TryTransmitByte_arch hw port_base byte s,
    ReadByteFromPort_arch hw port_base s, WriteByteToPort_arch port_base byte s,
    fun hp => ⟨?_, ?_⟩⟩
  · rw [ReadSerialLSR_eq Arch.x86 hw port_base s hp]
    simp [readPorts_append, readPorts, PortEvent.asReadPort, uartLsrPort, UART_LSR]
  · rw [ReadSerialLSR_eq Arch.amd64 hw port_base s hp]
    simp [readPorts_append, readPorts, PortEvent.asReadPort, uartLsrPort, UART_LSR]

/-- Instance of C9 at the base 0xFFFB, where `port_base + 5` is 0x10000: both
versions of `TryTransmitByte` read port 0x0000, write "A" to port 0xFFFB and
return TRUE. -/
theorem C9_witness_base_FFFB :
    TryTransmitByte Arch.x86 hwAlwaysReady 0xFFFB 0x41 IoState.init
      = TryTransmitByte Arch.amd64 hwAlwaysReady 0xFFFB 0x41 IoState.init ∧
    TryTransmitByte Arch.amd64 hwAlwaysReady 0xFFFB 0x41 IoState.init
      = (true, ⟨1, [PortEvent.read 0x0000 0x60, PortEvent.write 0xFFFB 0x41]⟩) :=
  ⟨(C9_backends_identical hwAlwaysReady 0xFFFB 0x41 IoState.init).2.2.2.1, by decide⟩

/-! ## Hardware lifecycle -/

/-- C10: for every device context `c`, `SerioEvtDevicePrepareHardware` returns
STATUS_SUCCESS and leaves a context with PortBase = 0x3F8 and PortWasMapped =
FALSE, the fields PortCount, PortMemoryType, BaudRate, DataBits, StopBits and
Parity being those of `c`; applied to its own result it returns the same
status and the same context again. -/
theorem C10_prepare_hardware (c : DEVICE_CONTEXT) :
    (SerioEvtDevicePrepareHardware c).1 = STATUS_SUCCESS ∧
    (SerioEvtDevicePrepareHardware c).2.PortBase = 0x3F8 ∧
    (SerioEvtDevicePrepareHardware c).2.PortWasMapped = false ∧
    (SerioEvtDevicePrepareHardware c).2.PortCount = c.PortCount ∧
    (SerioEvtDevicePrepareHardware c).2.PortMemoryType = c.PortMemoryType ∧
    (SerioEvtDevicePrepareHardware c).2.BaudRate = c.BaudRate ∧
    (SerioEvtDevicePrepareHardware c).2.DataBits = c.DataBits ∧
    (SerioEvtDevicePrepareHardware c).2.StopBits = c.StopBits ∧
    (SerioEvtDevicePrepareHardware c).2.Parity = c.Parity ∧
    SerioEvtDevicePrepareHardware (SerioEvtDevicePrepareHardware c).2
      = SerioEvtDevicePrepareHardware c :=
  ⟨rfl, rfl, rfl, rfl, rfl, rfl, rfl, rfl, rfl, rfl⟩

/-- C11: for every device context, whatever its flag PortWasMapped and whether
or not it comes from `SerioEvtDevicePrepareHardware`,
`SerioEvtDeviceReleaseHardware` returns STATUS_SUCCESS, a success status, and
leaves the context as it was; called a second time on the context it left it
returns STATUS_SUCCESS again, and the two calls together make at most one
unmap call (none, in fact). -/
theorem C11_release_hardware (c : DEVICE_CONTEXT) :
    (SerioEvtDeviceReleaseHardware c).1 = STATUS_SUCCESS ∧
    NT_SUCCESS (SerioEvtDeviceReleaseHardware c).1 = true ∧
    (SerioEvtDeviceReleaseHardware c).2.1 = c ∧
    (SerioEvtDeviceReleaseHardware (SerioEvtDevicePrepareHardware c).2).1
      = STATUS_SUCCESS ∧
    (SerioEvtDeviceReleaseHardware (SerioEvtDeviceReleaseHardware c).2.1).1
      = STATUS_SUCCESS ∧
    ((SerioEvtDeviceReleaseHardware c).2.2 ++
      (SerioEvtDeviceReleaseHardware (SerioEvtDeviceReleaseHardware c).2.1).2.2).length
      ≤ 1 ∧
    (SerioEvtDeviceReleaseHardware c).2.2 ++
      (SerioEvtDeviceReleaseHardware (SerioEvtDeviceReleaseHardware c).2.1).2.2 = [] := by
  have h : SerioEvtDeviceReleaseHardware c = (STATUS_SUCCESS, c, []) := by
    unfold SerioEvtDeviceReleaseHardware
    split <;> rfl
  have hp : SerioEvtDeviceReleaseHardware (SerioEvtDevicePrepareHardware c).2
      = (STATUS_SUCCESS, (SerioEvtDevicePrepareHardware c).2, []) := by
    unfold SerioEvtDeviceReleaseHardware
    split <;> rfl
  have hok : NT_SUCCESS STATUS_SUCCESS = true := by decide
  rw [hp, h, h]
  exact ⟨rfl, hok, rfl, rfl, rfl, Nat.zero_le 1, rfl⟩

/-! ## Stalls of the write dispatcher -/

/-- The stalls of a call whose buffer is retrieved: as many as there are polls
that find the transmitter busy. -/
theorem SerioEvtIoWrite_stalls (arch : Arch) (hw : Hardware) (devContext : DEVICE_CONTEXT)
    (Request : WDFREQUEST) (Length : Nat) (s : IoState) (hLen : Length ≠ 0)
    (hBuf : NT_SUCCESS (WdfRequestRetrieveInputBuffer Request Length).1 = true) :
    (∀ j, j < MAX_TX_ATTEMPTS →
      (∀ i, i < j → ¬ statusReading arch hw devContext (s.reads + i) &&& LSR_THRE ≠ 0) →
      statusReading arch hw devContext (s.reads + j) &&& LSR_THRE ≠ 0 →
      stalls (SerioEvtIoWrite arch hw devContext Request Length s).2.trace
        = stalls s.trace + j) ∧
    ((∀ i, i < MAX_TX_ATTEMPTS →
        ¬ statusReading arch hw devContext (s.reads + i) &&& LSR_THRE ≠ 0) →
      stalls (SerioEvtIoWrite arch hw devContext Request Length s).2.trace
        = stalls s.trace + MAX_TX_ATTEMPTS) := by
  constructor
  · intro j hj hb hr
    rw [SerioEvtIoWrite_first_ready arch hw devContext Request Length s j hLen hBuf hj hb hr,
      stalls_after_ready]
  · intro hb
    rw [SerioEvtIoWrite_never arch hw devContext Request Length s hLen hBuf hb,
      busyPolls_stalls]

/-- C13, as stated, fails: the buffer "A" on COM1 with a status register that
never shows THRE: the call makes 100 polls and 100 stalls, one after each
poll, the last one included; not MAX_TX_ATTEMPTS - 1 = 99. -/
theorem C13_counterexample_never_ready :
    (∀ i, i < MAX_TX_ATTEMPTS →
      ¬ statusReading Arch.amd64 hwNeverReady ctxCom1 i &&& LSR_THRE ≠ 0) ∧
    polls (SerioEvtIoWrite Arch.amd64 hwNeverReady ctxCom1 requestA 1
      IoState.init).2.trace = 100 ∧
    stalls (SerioEvtIoWrite Arch.amd64 hwNeverReady ctxCom1 requestA 1
      IoState.init).2.trace = 100 ∧
    stalls (SerioEvtIoWrite Arch.amd64 hwNeverReady ctxCom1 requestA 1
      IoState.init).2.trace ≠ MAX_TX_ATTEMPTS - 1 := by
  have hb : ∀ i, i < MAX_TX_ATTEMPTS →
      ¬ statusReading Arch.amd64 hwNeverReady ctxCom1 (IoState.init.reads + i)
        &&& LSR_THRE ≠ 0 := by
    intro i _
    simp [statusReading, hwNeverReady]
  have hrun := SerioEvtIoWrite_never Arch.amd64 hwNeverReady ctxCom1 requestA 1 IoState.init
    (by decide) (by decide) hb
  have hs : stalls (SerioEvtIoWrite Arch.amd64 hwNeverReady ctxCom1 requestA 1
      IoState.init).2.trace = 100 := by
    rw [hrun, busyPolls_stalls]
    rfl
  refine ⟨fun i hi => by simpa [IoState.init] using hb i hi, ?_, hs, ?_⟩
  · rw [hrun, busyPolls_polls]
    rfl
  · rw [hs]
    decide

/-- C13, amended: in a call whose buffer is retrieved, every poll that finds the
transmitter busy is followed by the increment of the attempt counter and by
the busy-wait, also when the counter has reached MAX_TX_ATTEMPTS.  So with
status readings none of whose first MAX_TX_ATTEMPTS has bit 0x20 set the call
makes exactly MAX_TX_ATTEMPTS = 100 stalls, and with readings first ready at
poll `k`, `1 ≤ k ≤ MAX_TX_ATTEMPTS`, exactly `k - 1` stalls; each stall lasts
TX_POLL_DELAY. -/
theorem C13_stall_after_every_busy_poll (arch : Arch) (hw : Hardware)
    (devContext : DEVICE_CONTEXT) (Request : WDFREQUEST) (Length : Nat) (s : IoState)
    (hLen : Length ≠ 0)
    (hBuf : NT_SUCCESS (WdfRequestRetrieveInputBuffer Request Length).1 = true) :
    ((∀ i, i < MAX_TX_ATTEMPTS →
        ¬ statusReading arch hw devContext (s.reads + i) &&& LSR_THRE ≠ 0) →
      stalls (SerioEvtIoWrite arch hw devContext Request Length s).2.trace
        = stalls s.trace + MAX_TX_ATTEMPTS) ∧
    (∀ k, 1 ≤ k → k ≤ MAX_TX_ATTEMPTS →
      (∀ i, i < k - 1 →
        ¬ statusReading arch hw devContext (s.reads + i) &&& LSR_THRE ≠ 0) →
      statusReading arch hw devContext (s.reads + (k - 1)) &&& LSR_THRE ≠ 0 →
      stalls (SerioEvtIoWrite arch hw devContext Request Length s).2.trace
        = stalls s.trace + (k - 1)) ∧
    (∀ (st : PollState), st.attempts < MAX_TX_ATTEMPTS →
      ¬ statusReading arch hw devContext st.io.reads &&& LSR_THRE ≠ 0 →
      pollLoop arch hw devContext (bufferByte (WdfRequestRetrieveInputBuffer Request Length).2 0)
          st
        = pollLoop arch hw devContext
            (bufferByte (WdfRequestRetrieveInputBuffer Request Length).2 0)
            ⟨st.bytesWritten, st.attempts + 1,
              KeStallExecutionProcessor TX_POLL_DELAY
                (READ_PORT_UCHAR hw (lsrPort arch devContext) st.io).2⟩) := by
  have h := SerioEvtIoWrite_stalls arch hw devContext Request Length s hLen hBuf
  refine ⟨h.2, fun k hk1 hk hb hr => h.1 (k - 1) (by omega) hb hr, ?_⟩
  intro st ha hr
  exact pollLoop_busy arch hw devContext _ st ha hr

/-- Witness of C13 (amended): the buffer "A" on COM1; with the transmitter ready
only on poll 5 the call makes 4 stalls. -/
theorem C13_witness_ready_on_poll_5 :
    stalls (SerioEvtIoWrite Arch.amd64 (hwReadyOnPoll 5) ctxCom1 requestA 1
      IoState.init).2.trace = 4 :=
  (C13_stall_after_every_busy_poll Arch.amd64 (hwReadyOnPoll 5) ctxCom1 requestA 1
    IoState.init (by decide) (by decide)).2.1 5 (by decide) (by decide) (by decide)
    (by decide)

/-! ## Outcomes of the polling loop -/

/-- The loop entered with `attempts = 0` and `bytesWritten = 0` ends in one of
two ways: timed out, with the counter at MAX_TX_ATTEMPTS, `bytesWritten` still 0
and no port write made; or transmitted, with the counter below MAX_TX_ATTEMPTS,
`bytesWritten = 1` and the one write of the byte to the transmit-holding
register. -/
theorem pollLoop_outcome (arch : Arch) (hw : Hardware) (devContext : DEVICE_CONTEXT)
    (txByte : Nat) (s : IoState) :
    ((pollLoop arch hw devContext txByte ⟨0, 0, s⟩).attempts = MAX_TX_ATTEMPTS ∧
      (pollLoop arch hw devContext txByte ⟨0, 0, s⟩).bytesWritten = 0 ∧
      writes (pollLoop arch hw devContext txByte ⟨0, 0, s⟩).io.trace = writes s.trace) ∨
    ((pollLoop arch hw devContext txByte ⟨0, 0, s⟩).attempts < MAX_TX_ATTEMPTS ∧
      (pollLoop arch hw devContext txByte ⟨0, 0, s⟩).bytesWritten = 1 ∧
      writes (pollLoop arch hw devContext txByte ⟨0, 0, s⟩).io.trace
        = writes s.trace ++ [(thrPort arch devContext, txByte % 256)]) := by
  rcases first_ready_or_never arch hw devContext s.reads MAX_TX_ATTEMPTS with
    hb | ⟨j, hj, hr, hb⟩
  · left
    rw [pollLoop_never arch hw devContext txByte ⟨0, 0, s⟩ (Nat.zero_le _) hb]
    exact ⟨rfl, rfl, busyPolls_writes arch hw devContext _ s⟩
  · right
    rw [pollLoop_first_ready arch hw devContext txByte j ⟨0, 0, s⟩
      (by simpa using hj) hb hr]
    refine ⟨by simpa using hj, rfl, ?_⟩
    rw [writes_after_ready, thrPort_mod]

/-- The completion of a call and the port writes it makes, for a request of
non-zero length: the writes are `bytesWritten` writes of `pBuffer[0]` to the
transmit-holding register, and `bytesWritten` is 0 or 1. -/
theorem SerioEvtIoWrite_writes (arch : Arch) (hw : Hardware) (devContext : DEVICE_CONTEXT)
    (Request : WDFREQUEST) (Length : Nat) (s : IoState) (hLen : Length ≠ 0) :
    ((SerioEvtIoWrite arch hw devContext Request Length s).1.bytesWritten = 0 ∨
      (SerioEvtIoWrite arch hw devContext Request Length s).1.bytesWritten = 1) ∧
    writes (SerioEvtIoWrite arch hw devContext Request Length s).2.trace
      = writes s.trace ++
        List.replicate (SerioEvtIoWrite arch hw devContext Request Length s).1.bytesWritten
          (thrPort arch devContext,
            bufferByte (WdfRequestRetrieveInputBuffer Request Length).2 0) := by
  cases hBuf : NT_SUCCESS (WdfRequestRetrieveInputBuffer Request Length).1 with
  | false =>
    rw [SerioEvtIoWrite_retrieve_failed arch hw devContext Request Length _ hLen hBuf]
    exact ⟨Or.inl rfl, by simp⟩
  | true =>
    rcases first_ready_or_never arch hw devContext s.reads MAX_TX_ATTEMPTS with
      hb | ⟨j, hj, hr, hb⟩
    · rw [SerioEvtIoWrite_never arch hw devContext Request Length s hLen hBuf hb,
        busyPolls_writes]
      exact ⟨Or.inl rfl, by simp⟩
    · rw [SerioEvtIoWrite_first_ready arch hw devContext Request Length s j
        hLen hBuf hj hb hr, writes_after_ready, thrPort_mod]
      exact ⟨Or.inr rfl, by simp [bufferByte]⟩

/-- Readiness on the 100th poll: the buffer "A" on COM1 with the transmitter
ready only on poll 100 is completed with 1 byte written after 100 polls and
99 stalls, and 0x41 is written to port 0x3F8. -/
theorem SerioEvtIoWrite_ready_on_poll_100 :
    (SerioEvtIoWrite Arch.amd64 (hwReadyOnPoll 100) ctxCom1 requestA 1
      IoState.init).1 = ⟨STATUS_SUCCESS, 1⟩ ∧
    polls (SerioEvtIoWrite Arch.amd64 (hwReadyOnPoll 100) ctxCom1 requestA 1
      IoState.init).2.trace = 100 ∧
    stalls (SerioEvtIoWrite Arch.amd64 (hwReadyOnPoll 100) ctxCom1 requestA 1
      IoState.init).2.trace = 99 ∧
    writes (SerioEvtIoWrite Arch.amd64 (hwReadyOnPoll 100) ctxCom1 requestA 1
      IoState.init).2.trace = [(0x3F8, 0x41)] := by
  have hrun := SerioEvtIoWrite_first_ready Arch.amd64 (hwReadyOnPoll 100) ctxCom1 requestA 1
    IoState.init 99 (by decide) (by decide) (by decide) (by decide) (by decide)
  rw [hrun, polls_after_ready, stalls_after_ready, writes_after_ready]
  exact ⟨rfl, rfl, rfl, by decide⟩

/-- C15: for every request of non-zero length, target, device context, hardware
and I/O state before the call, the call reports 0 or 1 byte, never both; it
reports 1 exactly when it made exactly one port write, which is the write of
`pBuffer[0]` to the transmit-holding register, and 0 exactly when it made
none.  In the loop itself a write goes with an exit below MAX_TX_ATTEMPTS and
`bytesWritten = 1`, and the exit at MAX_TX_ATTEMPTS goes with no write: the
reset of `bytesWritten` after the loop never undoes a write. -/
theorem C15_count_matches_writes (arch : Arch) (hw : Hardware)
    (devContext : DEVICE_CONTEXT) (Request : WDFREQUEST) (Length : Nat) (s : IoState)
    (hLen : Length ≠ 0) :
    ((SerioEvtIoWrite arch hw devContext Request Length s).1.bytesWritten = 0 ∨
      (SerioEvtIoWrite arch hw devContext Request Length s).1.bytesWritten = 1) ∧
    ((SerioEvtIoWrite arch hw devContext Request Length s).1.bytesWritten = 1 ↔
      writes (SerioEvtIoWrite arch hw devContext Request Length s).2.trace
        = writes s.trace ++
          [(thrPort arch devContext,
            bufferByte (WdfRequestRetrieveInputBuffer Request Length).2 0)]) ∧
    ((SerioEvtIoWrite arch hw devContext Request Length s).1.bytesWritten = 1 ↔
      (writes (SerioEvtIoWrite arch hw devContext Request Length s).2.trace).length
        = (writes s.trace).length + 1) ∧
    ((SerioEvtIoWrite arch hw devContext Request Length s).1.bytesWritten = 0 ↔
      writes (SerioEvtIoWrite arch hw devContext Request Length s).2.trace
        = writes s.trace) ∧
    (∀ txByte : Nat,
      ((pollLoop arch hw devContext txByte ⟨0, 0, s⟩).attempts = MAX_TX_ATTEMPTS ∧
        (pollLoop arch hw devContext txByte ⟨0, 0, s⟩).bytesWritten = 0 ∧
        writes (pollLoop arch hw devContext txByte ⟨0, 0, s⟩).io.trace = writes s.trace) ∨
      ((pollLoop arch hw devContext txByte ⟨0, 0, s⟩).attempts < MAX_TX_ATTEMPTS ∧
        (pollLoop arch hw devContext txByte ⟨0, 0, s⟩).bytesWritten = 1 ∧
        writes (pollLoop arch hw devContext txByte ⟨0, 0, s⟩).io.trace
          = writes s.trace ++ [(thrPort arch devContext, txByte % 256)])) := by
  have h := SerioEvtIoWrite_writes arch hw devContext Request Length s hLen
  refine ⟨h.1, ?_, ?_, ?_, fun txByte => pollLoop_outcome arch hw devContext txByte s⟩
  · rcases h.1 with h0 | h1
    · rw [h.2, h0]
      simp
    · rw [h.2, h1]
      simp
  · rcases h.1 with h0 | h1
    · rw [h.2, h0]
      simp
    · rw [h.2, h1]
      simp
  · rcases h.1 with h0 | h1
    · rw [h.2, h0]
      simp
    · rw [h.2, h1]
      simp

/-- Witness of C15: the buffer "A" on COM1 with the transmitter ready only on
poll 100, the last one the loop makes: the call reports 1 byte written, its
one port write being that of 0x41 to port 0x3F8. -/
theorem C15_witness_ready_on_poll_100 :
    (SerioEvtIoWrite Arch.amd64 (hwReadyOnPoll 100) ctxCom1 requestA 1
      IoState.init).1.bytesWritten = 1 :=
  (C15_count_matches_writes Arch.amd64 (hwReadyOnPoll 100) ctxCom1 requestA 1 IoState.init
    (by decide)).2.1.mpr
    (by rw [SerioEvtIoWrite_ready_on_poll_100.2.2.2]; decide)

/-! ## The polling loop and the UART helper -/

theorem portAccesses_append (a b : List PortEvent) :
    portAccesses (a ++ b) = portAccesses a ++ portAccesses b := by
  simp [portAccesses, List.filter_append]

theorem busyReads_reads (hw : Hardware) (port : Nat) (n : Nat) (s : IoState) :
    (busyReads hw port n s).reads = s.reads + n := by
  induction n generalizing s with
  | zero => rfl
  | succ n ih =>
    rw [busyReads, ih]
    simp [portIn]
    omega

/-- Polls that find the transmitter busy differ from bare status reads by their
stalls only. -/
theorem busyPolls_busyReads (arch : Arch) (hw : Hardware) (devContext : DEVICE_CONTEXT)
    (n : Nat) (s1 s2 : IoState) (hr : s1.reads = s2.reads)
    (ht : portAccesses s1.trace = portAccesses s2.trace) :
    (busyPolls arch hw devContext n s1).reads
      = (busyReads hw (lsrPort arch devContext) n s2).reads ∧
    portAccesses (busyPolls arch hw devContext n s1).trace
      = portAccesses (busyReads hw (lsrPort arch devContext) n s2).trace := by
  induction n generalizing s1 s2 with
  | zero => exact ⟨hr, ht⟩
  | succ n ih =>
    rw [busyPolls, busyReads, READ_PORT_UCHAR_lsrPort]
    apply ih
    · simp [KeStallExecutionProcessor, portIn, hr]
    · simp only [KeStallExecutionProcessor, portIn, portAccesses_append, ht, hr]
      simp [portAccesses, PortEvent.isStall]

/-- While the readings stay busy the calls of the helper only read. -/
theorem boundedPollWithHelper_busy_run (arch : Arch) (hw : Hardware) (port_base byte : Nat)
    (hp : port_base < 2 ^ 16) (hb : byte < 256) (n m : Nat) (s : IoState)
    (hbusy : ∀ i, i < n →
      ¬ hw (s.reads + i) (uartLsrPort arch port_base) % 256 &&& 0x20 ≠ 0) :
    boundedPollWithHelper arch hw port_base byte (n + m) s =
      boundedPollWithHelper arch hw port_base byte m
        (busyReads hw (uartLsrPort arch port_base) n s) := by
  induction n generalizing s with
  | zero => simp [busyReads]
  | succ n ih =>
    have h0 : ¬ hw s.reads (uartLsrPort arch port_base) % 256 &&& 0x20 ≠ 0 := by
      simpa using hbusy 0 (Nat.succ_pos n)
    have hstep : n + 1 + m = (n + m) + 1 := by omega
    rw [hstep, boundedPollWithHelper, TryTransmitByte_eq arch hw port_base byte s hp hb,
      if_neg h0]
    simp only [Bool.false_eq_true, if_false]
    rw [busyReads]
    have hs : (portIn hw (uartLsrPort arch port_base) s).2
        = ⟨s.reads + 1, s.trace ++ [PortEvent.read (uartLsrPort arch port_base)
            (hw s.reads (uartLsrPort arch port_base) % 256)]⟩ := rfl
    rw [hs]
    apply ih
    intro i hi
    have := hbusy (i + 1) (by omega)
    simpa [Nat.add_assoc, Nat.add_comm 1 i] using this

/-- On a target where the dispatcher and the helper address the same two ports,
a call of the dispatcher with a retrieved buffer and the bounded poll against
the helper report the same count, make the same number of reads and the same
port accesses. -/
theorem SerioEvtIoWrite_refines_helper (arch : Arch) (hw : Hardware)
    (devContext : DEVICE_CONTEXT) (Request : WDFREQUEST) (Length : Nat) (s : IoState)
    (hLen : Length ≠ 0)
    (hBuf : NT_SUCCESS (WdfRequestRetrieveInputBuffer Request Length).1 = true)
    (hp : devContext.PortBase < 2 ^ 16)
    (hlsr : lsrPort arch devContext = uartLsrPort arch devContext.PortBase)
    (hthr : thrPort arch devContext = devContext.PortBase) :
    (SerioEvtIoWrite arch hw devContext Request Length s).1.bytesWritten
      = (boundedPollWithHelper arch hw devContext.PortBase
          (bufferByte (WdfRequestRetrieveInputBuffer Request Length).2 0)
          MAX_TX_ATTEMPTS s).1 ∧
    (SerioEvtIoWrite arch hw devContext Request Length s).2.reads
      = (boundedPollWithHelper arch hw devContext.PortBase
          (bufferByte (WdfRequestRetrieveInputBuffer Request Length).2 0)
          MAX_TX_ATTEMPTS s).2.reads ∧
    portAccesses (SerioEvtIoWrite arch hw devContext Request Length s).2.trace
      = portAccesses (boundedPollWithHelper arch hw devContext.PortBase
          (bufferByte (WdfRequestRetrieveInputBuffer Request Length).2 0)
          MAX_TX_ATTEMPTS s).2.trace := by
  have hb : bufferByte (WdfRequestRetrieveInputBuffer Request Length).2 0 < 256 :=
    Nat.mod_lt _ (by decide)
  have hread : ∀ n, statusReading arch hw devContext n
      = hw n (uartLsrPort arch devContext.PortBase) % 256 := by
    intro n
    rw [statusReading, hlsr]
  rcases first_ready_or_never arch hw devContext s.reads MAX_TX_ATTEMPTS with
    hbusy | ⟨j, hj, hr, hbusy⟩
  · have hrun := boundedPollWithHelper_busy_run arch hw devContext.PortBase
      (bufferByte (WdfRequestRetrieveInputBuffer Request Length).2 0) hp hb
      MAX_TX_ATTEMPTS 0 s (fun i hi => by rw [← hread]; exact hbusy i hi)
    rw [Nat.add_zero] at hrun
    rw [SerioEvtIoWrite_never arch hw devContext Request Length s hLen hBuf hbusy, hrun,
      boundedPollWithHelper, ← hlsr]
    have hrel := busyPolls_busyReads arch hw devContext MAX_TX_ATTEMPTS s s rfl rfl
    exact ⟨rfl, hrel.1, hrel.2⟩
  · obtain ⟨m, hm⟩ : ∃ m, MAX_TX_ATTEMPTS = j + (m + 1) := ⟨MAX_TX_ATTEMPTS - j - 1, by omega⟩
    have hrun := boundedPollWithHelper_busy_run arch hw devContext.PortBase
      (bufferByte (WdfRequestRetrieveInputBuffer Request Length).2 0) hp hb
      j (m + 1) s (fun i hi => by rw [← hread]; exact hbusy i hi)
    have hrel := busyPolls_busyReads arch hw devContext j s s rfl rfl
    have hr2 : hw (busyReads hw (uartLsrPort arch devContext.PortBase) j s).reads
        (uartLsrPort arch devContext.PortBase) % 256 &&& 0x20 ≠ 0 := by
      rw [busyReads_reads, ← hread]
      exact hr
    rw [SerioEvtIoWrite_first_ready arch hw devContext Request Length s j hLen hBuf hj hbusy hr,
      hm, hrun, boundedPollWithHelper,
      TryTransmitByte_eq arch hw devContext.PortBase _ _ hp hb, if_pos hr2]
    simp only [if_true]
    rw [READ_PORT_UCHAR_lsrPort, WRITE_PORT_UCHAR_thrPort]
    rw [hlsr] at hrel
    rw [hlsr, hthr]
    refine ⟨trivial, ?_, ?_⟩
    · simp [portOut, portIn, hrel.1]
    · simp only [portOut, portIn, portAccesses_append,
        hrel.1, hrel.2, Nat.mod_eq_of_lt hb, List.append_assoc]
      rfl

theorem lsrAddress_of_16bit (arch : Arch) (devContext : DEVICE_CONTEXT)
    (hp : devContext.PortBase < 2 ^ 16) :
    lsrAddress arch devContext = devContext.PortBase + 5 := by
  norm_num at hp
  cases arch
  · have h1 : devContext.PortBase % 4294967296 = devContext.PortBase :=
      Nat.mod_eq_of_lt (by omega)
    have h2 : (devContext.PortBase + 5) % 4294967296 = devContext.PortBase + 5 :=
      Nat.mod_eq_of_lt (by omega)
    simp [lsrAddress, Arch.ptrBits, h1, h2]
  · have h1 : devContext.PortBase % 18446744073709551616 = devContext.PortBase :=
      Nat.mod_eq_of_lt (by omega)
    have h2 : (devContext.PortBase + 5) % 18446744073709551616 = devContext.PortBase + 5 :=
      Nat.mod_eq_of_lt (by omega)
    simp [lsrAddress, Arch.ptrBits, h1, h2]

theorem lsrPort_of_16bit (arch : Arch) (devContext : DEVICE_CONTEXT)
    (hp : devContext.PortBase < 2 ^ 16) :
    lsrPort arch devContext = (devContext.PortBase + 5) % 2 ^ 16 := by
  rw [lsrPort, lsrAddress_of_16bit arch devContext hp]

theorem lsrPort_eq_uartLsrPort (arch : Arch) (devContext : DEVICE_CONTEXT)
    (hp : devContext.PortBase < 2 ^ 16) :
    lsrPort arch devContext = uartLsrPort arch devContext.PortBase := by
  rw [lsrPort_of_16bit arch devContext hp]
  cases arch <;> rfl

theorem thrPort_of_16bit (arch : Arch) (devContext : DEVICE_CONTEXT)
    (hp : devContext.PortBase < 2 ^ 16) :
    thrPort arch devContext = devContext.PortBase :=
  thrPort_eq arch devContext hp

/-- The bounded poll against the helper never stalls. -/
theorem boundedPollWithHelper_stalls (arch : Arch) (hw : Hardware) (port_base byte : Nat)
    (hp : port_base < 2 ^ 16) (hb : byte < 256) (n : Nat) (s : IoState) :
    stalls (boundedPollWithHelper arch hw port_base byte n s).2.trace = stalls s.trace := by
  induction n generalizing s with
  | zero => rfl
  | succ n ih =>
    rw [boundedPollWithHelper, TryTransmitByte_eq arch hw port_base byte s hp hb]
    by_cases hr : hw s.reads (uartLsrPort arch port_base) % 256 &&& 0x20 ≠ 0
    · rw [if_pos hr]
      simp [stalls_append, stalls, PortEvent.isStall]
    · rw [if_neg hr]
      simp only [Bool.false_eq_true, if_false]
      rw [ih]
      simp [stalls_append, stalls, PortEvent.isStall]

/-- C14: with the UART helper of the AMD64 build, for every device context whose
port base fits in 16 bits, every request of non-zero length whose buffer is
retrieved (every byte `pBuffer[0]`), every hardware and I/O state before the
call: the call of the dispatcher and the bounded poll
"`TryTransmitByte(base, pBuffer[0])` at most MAX_TX_ATTEMPTS times, stopping at
the first TRUE" report the same number of bytes written, make the same number
of reads and the same port accesses in the same order with the same values
(status reads at `base + 5`, the data write at `base + 0`, both as ports of
the 16-bit port space; the pointer the dispatcher hands to `READ_PORT_UCHAR` is
`base + 5`); the helper's poll makes no stall, so the two traces differ by the
dispatcher's stalls only. -/
theorem C14_dispatcher_polls_like_helper (hw : Hardware) (devContext : DEVICE_CONTEXT)
    (Request : WDFREQUEST) (Length : Nat) (s : IoState)
    (hp : devContext.PortBase < 2 ^ 16) (hLen : Length ≠ 0)
    (hBuf : NT_SUCCESS (WdfRequestRetrieveInputBuffer Request Length).1 = true) :
    (SerioEvtIoWrite Arch.amd64 hw devContext Request Length s).1.bytesWritten
      = (boundedPollWithHelper Arch.amd64 hw devContext.PortBase
          (bufferByte (WdfRequestRetrieveInputBuffer Request Length).2 0)
          MAX_TX_ATTEMPTS s).1 ∧
    (SerioEvtIoWrite Arch.amd64 hw devContext Request Length s).2.reads
      = (boundedPollWithHelper Arch.amd64 hw devContext.PortBase
          (bufferByte (WdfRequestRetrieveInputBuffer Request Length).2 0)
          MAX_TX_ATTEMPTS s).2.reads ∧
    portAccesses (SerioEvtIoWrite Arch.amd64 hw devContext Request Length s).2.trace
      = portAccesses (boundedPollWithHelper Arch.amd64 hw devContext.PortBase
          (bufferByte (WdfRequestRetrieveInputBuffer Request Length).2 0)
          MAX_TX_ATTEMPTS s).2.trace ∧
    stalls (boundedPollWithHelper Arch.amd64 hw devContext.PortBase
        (bufferByte (WdfRequestRetrieveInputBuffer Request Length).2 0)
        MAX_TX_ATTEMPTS s).2.trace = stalls s.trace ∧
    lsrAddress Arch.amd64 devContext = devContext.PortBase + 5 ∧
    lsrPort Arch.amd64 devContext = (devContext.PortBase + 5) % 2 ^ 16 ∧
    uartLsrPort Arch.amd64 devContext.PortBase = (devContext.PortBase + 5) % 2 ^ 16 ∧
    thrPort Arch.amd64 devContext = devContext.PortBase + 0 := by
  have hl := lsrPort_eq_uartLsrPort Arch.amd64 devContext hp
  have ht := thrPort_of_16bit Arch.amd64 devContext hp
  have h := SerioEvtIoWrite_refines_helper Arch.amd64 hw devContext Request Length s hLen hBuf
    hp hl ht
  exact ⟨h.1, h.2.1, h.2.2,
    boundedPollWithHelper_stalls Arch.amd64 hw devContext.PortBase _ hp
      (Nat.mod_lt _ (by decide)) _ s, lsrAddress_of_16bit Arch.amd64 devContext hp,
    lsrPort_of_16bit Arch.amd64 devContext hp, rfl, ht⟩

/-- Witness of C14: the buffer "A" on COM1 (0x3F8) with the transmitter ready
only on poll 5: the dispatcher makes the port accesses of the bounded poll
against the helper. -/
theorem C14_witness_com1 :
    portAccesses (SerioEvtIoWrite Arch.amd64 (hwReadyOnPoll 5) ctxCom1 requestA 1
        IoState.init).2.trace
      = portAccesses (boundedPollWithHelper Arch.amd64 (hwReadyOnPoll 5) 0x3F8 0x41
          MAX_TX_ATTEMPTS IoState.init).2.trace :=
  (C14_dispatcher_polls_like_helper (hwReadyOnPoll 5) ctxCom1 requestA 1 IoState.init
    (by decide) (by decide) (by decide)).2.2.1

/-- The same on the x86 build, for every 16-bit base. -/
theorem SerioEvtIoWrite_refines_helper_x86 (hw : Hardware) (devContext : DEVICE_CONTEXT)
    (Request : WDFREQUEST) (Length : Nat) (s : IoState)
    (hp : devContext.PortBase < 2 ^ 16) (hLen : Length ≠ 0)
    (hBuf : NT_SUCCESS (WdfRequestRetrieveInputBuffer Request Length).1 = true) :
    (SerioEvtIoWrite Arch.x86 hw devContext Request Length s).1.bytesWritten
      = (boundedPollWithHelper Arch.x86 hw devContext.PortBase
          (bufferByte (WdfRequestRetrieveInputBuffer Request Length).2 0)
          MAX_TX_ATTEMPTS s).1 ∧
    portAccesses (SerioEvtIoWrite Arch.x86 hw devContext Request Length s).2.trace
      = portAccesses (boundedPollWithHelper Arch.x86 hw devContext.PortBase
          (bufferByte (WdfRequestRetrieveInputBuffer Request Length).2 0)
          MAX_TX_ATTEMPTS s).2.trace := by
  have h := SerioEvtIoWrite_refines_helper Arch.x86 hw devContext Request Length s hLen hBuf
    hp (lsrPort_eq_uartLsrPort Arch.x86 devContext hp)
    (thrPort_of_16bit Arch.x86 devContext hp)
  exact ⟨h.1, h.2.2⟩

/-- At the base 0xFFFB the dispatcher hands the pointer 0x10000 to
`READ_PORT_UCHAR`, which reads port 0x0000, the port the helper reads. -/
theorem top_of_port_space_status_port :
    lsrAddress Arch.amd64 ctxTopOfPortSpace = 0x10000 ∧
    lsrPort Arch.amd64 ctxTopOfPortSpace = 0x0000 ∧
    uartLsrPort Arch.amd64 0xFFFB = 0x0000 ∧
    uartLsrPort Arch.x86 0xFFFB = 0x0000 := by
  decide

/-! ## The client loop of `write_serial.c` -/

theorem writeCalls_append (a b : List WriteSerial.ClientEvent) :
    WriteSerial.writeCalls (a ++ b) = WriteSerial.writeCalls a ++ WriteSerial.writeCalls b := by
  simp [WriteSerial.writeCalls, List.filter_append]

theorem writesForChar_le (drv : WriteSerial.Driver) (start budget : Nat) :
    WriteSerial.writesForChar drv start budget ≤ budget := by
  induction budget generalizing start with
  | zero => simp [WriteSerial.writesForChar]
  | succ b ih =>
    rw [WriteSerial.writesForChar]
    split
    · omega
    · have := ih (start + 1)
      omega

theorem writesForChar_pos (drv : WriteSerial.Driver) (start budget : Nat) (h : 0 < budget) :
    1 ≤ WriteSerial.writesForChar drv start budget := by
  cases budget with
  | zero => exact absurd h (Nat.lt_irrefl 0)
  | succ b =>
    rw [WriteSerial.writesForChar]
    split <;> omega

/-- No response before the last write of a character reports 1 byte. -/
theorem writesForChar_before (drv : WriteSerial.Driver) (start budget j : Nat)
    (hj : j + 1 < WriteSerial.writesForChar drv start budget) :
    (drv (start + j)).2 ≠ 1 := by
  induction budget generalizing start j with
  | zero => simp [WriteSerial.writesForChar] at hj
  | succ b ih =>
    rw [WriteSerial.writesForChar] at hj
    split at hj
    · omega
    · rename_i h1
      cases j with
      | zero => simpa using h1
      | succ j =>
        have := ih (start + 1) j (by omega)
        have he : start + (j + 1) = start + 1 + j := by omega
        rw [he]
        exact this

/-- When the writes of a character stop short of the budget, the response to the
last of them reports 1 byte. -/
theorem writesForChar_last (drv : WriteSerial.Driver) (start budget : Nat)
    (h : WriteSerial.writesForChar drv start budget < budget) :
    (drv (start + (WriteSerial.writesForChar drv start budget - 1))).2 = 1 := by
  induction budget generalizing start with
  | zero => exact absurd h (Nat.not_lt_zero _)
  | succ b ih =>
    rw [WriteSerial.writesForChar] at h ⊢
    split
    · rename_i h1
      simpa using h1
    · rename_i h1
      rw [if_neg h1] at h
      have hb : WriteSerial.writesForChar drv (start + 1) b < b := by omega
      have hpos : 1 ≤ WriteSerial.writesForChar drv (start + 1) b :=
        writesForChar_pos drv (start + 1) b (by omega)
      have := ih (start + 1) hb
      have he : start + (1 + WriteSerial.writesForChar drv (start + 1) b - 1)
          = start + 1 + (WriteSerial.writesForChar drv (start + 1) b - 1) := by omega
      rw [he]
      exact this

/-- The retry loop of one character, when every `WriteFile` call succeeds: it
makes `writesForChar` calls, all of them single-byte writes of the character. -/
theorem retryLoop_writes (drv : WriteSerial.Driver) (hok : ∀ n, (drv n).1 = true)
    (cByte budget nAttempts : Nat) (st : WriteSerial.ClientState)
    (hab : nAttempts + budget = WriteSerial.MAX_TX_ATTEMPTS) :
    (WriteSerial.retryLoop drv cByte nAttempts st).2.calls
      = st.calls + WriteSerial.writesForChar drv st.calls budget ∧
    WriteSerial.writeCalls (WriteSerial.retryLoop drv cByte nAttempts st).2.trace
      = WriteSerial.writeCalls st.trace ++
        List.replicate (WriteSerial.writesForChar drv st.calls budget)
          (WriteSerial.ClientEvent.writeFile cByte 1) := by
  induction budget generalizing nAttempts st with
  | zero =>
    rw [WriteSerial.retryLoop, if_neg (by omega)]
    simp [WriteSerial.writesForChar]
  | succ b ih =>
    have hlt : nAttempts < WriteSerial.MAX_TX_ATTEMPTS := by omega
    rw [WriteSerial.retryLoop, if_pos hlt, WriteSerial.writesForChar]
    simp only [WriteSerial.WriteFile, hok, if_true]
    by_cases h1 : (drv st.calls).2 = 1
    · simp [h1, writeCalls_append, WriteSerial.writeCalls, WriteSerial.ClientEvent.isWrite]
    · simp only [h1, if_false]
      by_cases hmax : nAttempts + 1 ≥ WriteSerial.MAX_TX_ATTEMPTS
      · rw [if_pos hmax]
        have := ih (nAttempts + 1)
          ⟨st.calls + 1, st.trace ++ [WriteSerial.ClientEvent.writeFile cByte 1]⟩ (by omega)
        simp only at this
        rw [this.1, this.2]
        constructor
        · omega
        · simp [writeCalls_append, WriteSerial.writeCalls, WriteSerial.ClientEvent.isWrite,
            List.replicate_add]
      · rw [if_neg hmax]
        have := ih (nAttempts + 1)
          (WriteSerial.Sleep WriteSerial.TX_POLL_DELAY
            ⟨st.calls + 1, st.trace ++ [WriteSerial.ClientEvent.writeFile cByte 1]⟩)
          (by omega)
        simp only [WriteSerial.Sleep] at this ⊢
        rw [this.1, this.2]
        constructor
        · omega
        · simp [writeCalls_append, WriteSerial.writeCalls, WriteSerial.ClientEvent.isWrite,
            List.replicate_add]

/-- The loop over the characters, when every `WriteFile` call succeeds. -/
theorem forLoop_writes (drv : WriteSerial.Driver) (hok : ∀ n, (drv n).1 = true)
    (strData : List Nat) (st : WriteSerial.ClientState) :
    (WriteSerial.forLoop drv strData st).calls
      = st.calls + (WriteSerial.expectedWrites drv st.calls strData).length ∧
    WriteSerial.writeCalls (WriteSerial.forLoop drv strData st).trace
      = WriteSerial.writeCalls st.trace ++ WriteSerial.expectedWrites drv st.calls strData := by
  induction strData generalizing st with
  | nil => simp [WriteSerial.forLoop, WriteSerial.expectedWrites]
  | cons cByte rest ih =>
    have hr := retryLoop_writes drv hok cByte WriteSerial.MAX_TX_ATTEMPTS 0 st (by omega)
    have hi := ih (WriteSerial.retryLoop drv cByte 0 st).2
    rw [WriteSerial.forLoop, WriteSerial.expectedWrites, hi.1, hi.2, hr.1, hr.2]
    constructor
    · simp only [List.length_append, List.length_replicate]
      omega
    · simp [List.append_assoc]

theorem expectedWrites_length_le (drv : WriteSerial.Driver) (start : Nat)
    (strData : List Nat) :
    (WriteSerial.expectedWrites drv start strData).length
      ≤ WriteSerial.MAX_TX_ATTEMPTS * strData.length := by
  induction strData generalizing start with
  | nil => simp [WriteSerial.expectedWrites]
  | cons cByte rest ih =>
    rw [WriteSerial.expectedWrites]
    have h1 := writesForChar_le drv start WriteSerial.MAX_TX_ATTEMPTS
    have h2 := ih (start + WriteSerial.writesForChar drv start WriteSerial.MAX_TX_ATTEMPTS)
    simp only [List.length_append, List.length_replicate, List.length_cons, Nat.mul_succ]
    omega

/-- C12: for every string and every driver each of whose responses is a success
reporting 0 or 1 bytes written, the client opened on a valid handle ends with
exit code 0, and its `WriteFile` calls are, for each character in order,
single-byte writes carrying that character, `writesForChar` of them: at least
1 and at most MAX_TX_ATTEMPTS = 100, every response before the last of them
reporting 0 bytes, and the last one reporting 1 byte whenever fewer than 100
were made.  The whole run makes at most 100 times the length of the string
calls. -/
theorem C12_client_retry_loop (drv : WriteSerial.Driver) (strData : List Nat)
    (hresp : ∀ n, (drv n).1 = true ∧ ((drv n).2 = 0 ∨ (drv n).2 = 1)) :
    (WriteSerial.main drv true strData).1 = 0 ∧
    WriteSerial.writeCalls (WriteSerial.main drv true strData).2.trace
      = WriteSerial.expectedWrites drv 0 strData ∧
    (WriteSerial.main drv true strData).2.calls
      = (WriteSerial.writeCalls (WriteSerial.main drv true strData).2.trace).length ∧
    (WriteSerial.writeCalls (WriteSerial.main drv true strData).2.trace).length
      ≤ 100 * strData.length ∧
    WriteSerial.MAX_TX_ATTEMPTS = 100 ∧
    (∀ start,
      1 ≤ WriteSerial.writesForChar drv start WriteSerial.MAX_TX_ATTEMPTS ∧
      WriteSerial.writesForChar drv start WriteSerial.MAX_TX_ATTEMPTS
        ≤ WriteSerial.MAX_TX_ATTEMPTS ∧
      (∀ j, j + 1 < WriteSerial.writesForChar drv start WriteSerial.MAX_TX_ATTEMPTS →
        (drv (start + j)).2 = 0) ∧
      (WriteSerial.writesForChar drv start WriteSerial.MAX_TX_ATTEMPTS
          < WriteSerial.MAX_TX_ATTEMPTS →
        (drv (start + (WriteSerial.writesForChar drv start WriteSerial.MAX_TX_ATTEMPTS - 1))).2
          = 1)) := by
  have hok : ∀ n, (drv n).1 = true := fun n => (hresp n).1
  have hf := forLoop_writes drv hok strData WriteSerial.ClientState.init
  have hmain : WriteSerial.main drv true strData
      = (0, WriteSerial.forLoop drv strData WriteSerial.ClientState.init) := by
    simp [WriteSerial.main]
  have hw : WriteSerial.writeCalls (WriteSerial.main drv true strData).2.trace
      = WriteSerial.expectedWrites drv 0 strData := by
    rw [hmain, hf.2]
    simp [WriteSerial.ClientState.init, WriteSerial.writeCalls]
  refine ⟨by rw [hmain], hw, ?_, ?_, rfl, ?_⟩
  · rw [hw, hmain, hf.1]
    simp [WriteSerial.ClientState.init]
  · rw [hw]
    exact expectedWrites_length_le drv 0 strData
  · intro start
    refine ⟨writesForChar_pos drv start _ (by decide), writesForChar_le drv start _, ?_,
      writesForChar_last drv start _⟩
    intro j hj
    rcases (hresp (start + j)).2 with h0 | h1
    · exact h0
    · exact absurd h1 (writesForChar_before drv start _ j hj)

/-- Witness of C12: the string "Hi" with a driver that reports 0 bytes on the
first two calls and 1 byte afterwards: three writes of "H", the third one
accepted, then one write of "i". -/
theorem C12_witness_Hi :
    WriteSerial.writeCalls (WriteSerial.main drvSendsFromThird true [0x48, 0x69]).2.trace
      = [WriteSerial.ClientEvent.writeFile 0x48 1, WriteSerial.ClientEvent.writeFile 0x48 1,
         WriteSerial.ClientEvent.writeFile 0x48 1, WriteSerial.ClientEvent.writeFile 0x69 1] :=
  (C12_client_retry_loop drvSendsFromThird [0x48, 0x69]
    (fun n => ⟨rfl, by unfold drvSendsFromThird; split <;> simp⟩)).2.1.trans (by decide)

end Serio
